import Mathlib

/-!
Shallow embedding of the cyclic PDF record-reconstruction engine
(`src/scripts/parse-orders-pdf.py`, `parse-ddt-pdf.py`, `parse-prices-pdf.py`,
`parse-products-pdf.py`, `parse-saleslines-pdf.py`).

Python strings are Lean `String`s (the documents' vocabulary is ASCII plus a
few symbols such as the euro sign); cells are `Option String` (`None` = absent).
Fallible Python primitives (`float`, `datetime.strptime`) are embedded as
`Except PyErr`-valued functions; a Python `try/except ValueError` becomes a
`match` on that result.  Python floats are embedded as `PyFloat`: a rational
(every finite numeric literal in these documents is a finite decimal, on which
the two agree), a NaN, or a signed infinity, with `float()` accepting the
`nan`/`inf`/`infinity` words and PEP 515 underscore literals as CPython does.
-/

namespace Archibald

/-- Python exception values that the embedded primitives can raise. -/
inductive PyErr where
  | valueError (msg : String)
deriving DecidableEq, Repr

instance exceptDecEq {ε α : Type} [DecidableEq ε] [DecidableEq α] :
    DecidableEq (Except ε α)
  | .ok a, .ok b => if h : a = b then .isTrue (by rw [h]) else .isFalse (by simp [h])
  | .ok _, .error _ => .isFalse (by simp)
  | .error _, .ok _ => .isFalse (by simp)
  | .error a, .error b => if h : a = b then .isTrue (by rw [h]) else .isFalse (by simp [h])

/-- Python truthiness of an optional string: `None` and `""` are falsy. -/
def truthy : Option String → Bool
  | none => false
  | some s => s ≠ ""

/-- Whitespace recognised by Python's `str.strip` / regex `\s` (ASCII range). -/
def isPySpace (c : Char) : Bool :=
  c = ' ' ∨ c = '\t' ∨ c = '\n' ∨ c = '\r' ∨ c = '\x0b' ∨ c = '\x0c'

/-- `str.strip()` on a character list. -/
def pyStripL (l : List Char) : List Char :=
  ((l.dropWhile isPySpace).reverse.dropWhile isPySpace).reverse

/-- `str.strip()`. -/
def pyStrip (s : String) : String :=
  String.mk (pyStripL s.toList)

/-- `str.upper()` (ASCII, which is all these headers use). -/
def pyUpper (s : String) : String :=
  String.mk (s.toList.map Char.toUpper)

/-- `str.lower()` (ASCII). -/
def pyLower (s : String) : String :=
  String.mk (s.toList.map Char.toLower)

/-- Does `pre` start the list `l`? -/
def startsWithL : List Char → List Char → Bool
  | [], _ => true
  | _ :: _, [] => false
  | a :: as, b :: bs => a = b && startsWithL as bs

/-- Python `needle in hay` substring test. -/
def containsL (n : List Char) : List Char → Bool
  | [] => n.isEmpty
  | h :: t => startsWithL n (h :: t) || containsL n t

/-- Python `needle in hay` on strings. -/
def substrOf (needle hay : String) : Bool :=
  containsL needle.toList hay.toList

/-- Python `s.startswith(pre)`. -/
def pyStartsWith (s pre : String) : Bool :=
  startsWithL pre.toList s.toList

/-- Python `s.replace(a, r)` for a one-character pattern (the only shape the
scripts use): every occurrence of `a` is replaced by `r`. -/
def replaceChar (a : Char) (r : List Char) : List Char → List Char
  | [] => []
  | c :: rest => if c = a then r ++ replaceChar a r rest else c :: replaceChar a r rest

/-- Numeric value of a digit character. -/
def chVal (c : Char) : Nat := c.toNat - '0'.toNat

/-- Value of a digit string, most significant first. -/
def digitsNat (cs : List Char) : Nat :=
  cs.foldl (fun a c => a * 10 + chVal c) 0

/-- Optional leading sign; returns (isNegative, rest). -/
def floatSign (cs : List Char) : Bool × List Char :=
  match cs with
  | c :: r => if c = '+' then (false, r) else if c = '-' then (true, r) else (false, cs)
  | [] => (false, cs)

/-- Split a maximal run of digits off the front. -/
def spanDigits (cs : List Char) : List Char × List Char :=
  (cs.takeWhile Char.isDigit, cs.dropWhile Char.isDigit)

/-- `10^e` over ℚ for an integer exponent. -/
def tenPow : Int → Rat
  | .ofNat n => (10 : Rat) ^ n
  | .negSucc n => 1 / (10 : Rat) ^ (n + 1)

/-- Finish a float literal: optional exponent, then end of string. -/
def floatExpEnd (neg : Bool) (ip fp : List Char) (cs : List Char) : Option Rat :=
  let base : Rat := ((digitsNat ip * 10 ^ fp.length + digitsNat fp : Nat) : Rat)
  let mk : Int → Rat := fun e =>
    let m := base / (10 : Rat) ^ fp.length * tenPow e
    if neg then -m else m
  match cs with
  | [] => some (mk 0)
  | c :: rest =>
    if c = 'e' ∨ c = 'E' then
      let (eneg, r2) := floatSign rest
      let (ed, r3) := spanDigits r2
      if ed = [] ∨ r3 ≠ [] then none
      else some (mk (if eneg then -(digitsNat ed : Int) else (digitsNat ed : Int)))
    else none

/-- Grammar of a finite Python `float()` literal: sign, digits with at most
one dot (at least one digit), optional exponent.  Underscores have been
validated and removed, and the `nan`/`inf` words matched, before this runs. -/
def floatCore (cs : List Char) : Option Rat :=
  let p1 := floatSign cs
  let p2 := spanDigits p1.2
  match p2.2 with
  | '.' :: rest =>
    let p3 := spanDigits rest
    if p2.1 = [] ∧ p3.1 = [] then none else floatExpEnd p1.1 p2.1 p3.1 p3.2
  | _ => if p2.1 = [] then none else floatExpEnd p1.1 p2.1 [] p2.2

/-- The value of a Python float: a finite rational, a NaN, or a signed
infinity.  (`float('-nan')` is collapsed onto `nan`: the scripts only compare
and multiply these values, operations on which the NaN sign is unobservable.) -/
inductive PyFloat where
  | num (q : Rat)
  | nan
  | inf (neg : Bool)
deriving DecidableEq, Repr

/-- PEP 515: every underscore of a `float()` literal must stand directly
between two digits.  `prev` is the character before the current position. -/
def underscoresOKGo (prev : Option Char) : List Char → Bool
  | [] => true
  | c :: rest =>
    if c = '_' then
      (prev.elim false Char.isDigit) && ((rest.headD ' ').isDigit) &&
        underscoresOKGo (some c) rest
    else underscoresOKGo (some c) rest

def underscoresOK (l : List Char) : Bool := underscoresOKGo none l

/-- Python `float(s)`: strips whitespace; validates and removes PEP 515
underscores; after an optional sign accepts `nan`, `inf` and `infinity`
case-insensitively; otherwise parses a numeric literal; raises `ValueError`
on anything else. -/
def pyFloat (cs : List Char) : Except PyErr PyFloat :=
  let t := pyStripL cs
  if underscoresOK t = false then .error (.valueError "could not convert string to float")
  else
    let u := t.filter (fun c => c ≠ '_')
    let s := floatSign u
    let w := s.2.map Char.toLower
    if w = ['n', 'a', 'n'] then .ok .nan
    else if w = ['i', 'n', 'f'] ∨ w = ['i', 'n', 'f', 'i', 'n', 'i', 't', 'y'] then
      .ok (.inf s.1)
    else
      match floatCore u with
      | some q => .ok (.num q)
      | none => .error (.valueError "could not convert string to float")

/-- `parse_italian_decimal` from `parse-saleslines-pdf.py` (same body in the
other scripts): strips `€`/`%`, drops thousands dots, turns the decimal comma
into a dot, then `float(...)` with `except ValueError` yielding `None`. -/
def parse_italian_decimal (value : Option String) : Except PyErr (Option PyFloat) :=
  match value with
  | none => .ok none
  | some v =>
    if v = "" then .ok none
    else
      let v1 := pyStripL (replaceChar '%' [] (replaceChar '€' [] v.toList))
      let v2 := replaceChar ',' ['.'] (replaceChar '.' [] v1)
      match pyFloat v2 with
      | .ok q => .ok (some q)
      | .error (.valueError _) => .ok none

/-! ### `datetime.strptime` with the two fixed formats, and `isoformat`

CPython's `_strptime` compiles `%d` to `3[0-1]|[1-2]\d|0[1-9]|[1-9]| [1-9]`,
`%m` to `1[0-2]|0[1-9]|[1-9]`, `%Y` to `\d\d\d\d`, `%H` to `2[0-3]|[0-1]\d|\d`,
`%M` to `[0-5]\d|\d`, `%S` to `6[0-1]|[0-5]\d|\d`, and a literal space to
`\s+`.  The callers strip the input first, so the ` [1-9]` day alternative is
unreachable; after each field the next pattern character is a non-digit, so
ordered greedy alternatives coincide with the regex (no backtracking arises).
The `datetime` constructor then rejects out-of-range days, year 0 and leap
seconds with `ValueError`. -/

/-- `%d` field (1–31). -/
def reDay : List Char → Option (Nat × List Char)
  | c1 :: c2 :: rest =>
    if c1 = '3' ∧ (c2 = '0' ∨ c2 = '1') then some (30 + chVal c2, rest)
    else if (c1 = '1' ∨ c1 = '2') ∧ c2.isDigit then some (chVal c1 * 10 + chVal c2, rest)
    else if c1 = '0' ∧ ('1' ≤ c2 ∧ c2 ≤ '9') then some (chVal c2, rest)
    else if '1' ≤ c1 ∧ c1 ≤ '9' then some (chVal c1, c2 :: rest)
    else none
  | [c1] => if '1' ≤ c1 ∧ c1 ≤ '9' then some (chVal c1, []) else none
  | [] => none

/-- `%m` field (1–12). -/
def reMonth : List Char → Option (Nat × List Char)
  | c1 :: c2 :: rest =>
    if c1 = '1' ∧ ('0' ≤ c2 ∧ c2 ≤ '2') then some (10 + chVal c2, rest)
    else if c1 = '0' ∧ ('1' ≤ c2 ∧ c2 ≤ '9') then some (chVal c2, rest)
    else if '1' ≤ c1 ∧ c1 ≤ '9' then some (chVal c1, c2 :: rest)
    else none
  | [c1] => if '1' ≤ c1 ∧ c1 ≤ '9' then some (chVal c1, []) else none
  | [] => none

/-- `%Y` field (exactly four digits). -/
def reYear4 : List Char → Option (Nat × List Char)
  | a :: b :: c :: d :: rest =>
    if a.isDigit ∧ b.isDigit ∧ c.isDigit ∧ d.isDigit then
      some (digitsNat [a, b, c, d], rest)
    else none
  | _ => none

/-- `%H` field (0–23). -/
def reHour : List Char → Option (Nat × List Char)
  | c1 :: c2 :: rest =>
    if c1 = '2' ∧ ('0' ≤ c2 ∧ c2 ≤ '3') then some (20 + chVal c2, rest)
    else if (c1 = '0' ∨ c1 = '1') ∧ c2.isDigit then some (chVal c1 * 10 + chVal c2, rest)
    else if c1.isDigit then some (chVal c1, c2 :: rest)
    else none
  | [c1] => if c1.isDigit then some (chVal c1, []) else none
  | [] => none

/-- `%M` field (0–59). -/
def reMinute : List Char → Option (Nat × List Char)
  | c1 :: c2 :: rest =>
    if ('0' ≤ c1 ∧ c1 ≤ '5') ∧ c2.isDigit then some (chVal c1 * 10 + chVal c2, rest)
    else if c1.isDigit then some (chVal c1, c2 :: rest)
    else none
  | [c1] => if c1.isDigit then some (chVal c1, []) else none
  | [] => none

/-- `%S` field (0–61 at the regex level; 60/61 rejected by the constructor). -/
def reSecond : List Char → Option (Nat × List Char)
  | c1 :: c2 :: rest =>
    if c1 = '6' ∧ (c2 = '0' ∨ c2 = '1') then some (60 + chVal c2, rest)
    else if ('0' ≤ c1 ∧ c1 ≤ '5') ∧ c2.isDigit then some (chVal c1 * 10 + chVal c2, rest)
    else if c1.isDigit then some (chVal c1, c2 :: rest)
    else none
  | [c1] => if c1.isDigit then some (chVal c1, []) else none
  | [] => none

/-- Match one literal character. -/
def expectChar (c : Char) : List Char → Option (List Char)
  | x :: r => if x = c then some r else none
  | [] => none

/-- Literal whitespace in the format, compiled to `\s+`. -/
def skipWs1 (cs : List Char) : Option (List Char) :=
  if cs.takeWhile isPySpace = [] then none else some (cs.dropWhile isPySpace)

/-- Gregorian leap year, as `calendar.isleap`. -/
def isLeap (y : Nat) : Bool :=
  y % 4 = 0 ∧ (y % 100 ≠ 0 ∨ y % 400 = 0)

/-- Days in a month (month already 1–12 from the regex). -/
def daysInMonth (y m : Nat) : Nat :=
  if m = 2 then (if isLeap y then 29 else 28)
  else if m = 4 ∨ m = 6 ∨ m = 9 ∨ m = 11 then 30
  else 31

/-- `datetime.strptime(s, "%d/%m/%Y")` followed by the `datetime` constructor
checks; returns (year, month, day) or raises `ValueError`. -/
def strptime_dmy (s : String) : Except PyErr (Nat × Nat × Nat) :=
  let r : Option (Nat × Nat × Nat) :=
    (reDay s.toList).bind fun (d, r1) =>
    (expectChar '/' r1).bind fun r2 =>
    (reMonth r2).bind fun (m, r3) =>
    (expectChar '/' r3).bind fun r4 =>
    (reYear4 r4).bind fun (y, r5) =>
    if r5 = [] ∧ 1 ≤ y ∧ d ≤ daysInMonth y m then some (y, m, d) else none
  match r with
  | some v => .ok v
  | none => .error (.valueError "time data does not match format or is out of range")

/-- `datetime.strptime(s, "%d/%m/%Y %H:%M:%S")` with constructor checks. -/
def strptime_dmy_hms (s : String) : Except PyErr (Nat × Nat × Nat × Nat × Nat × Nat) :=
  let r : Option (Nat × Nat × Nat × Nat × Nat × Nat) :=
    (reDay s.toList).bind fun (d, r1) =>
    (expectChar '/' r1).bind fun r2 =>
    (reMonth r2).bind fun (m, r3) =>
    (expectChar '/' r3).bind fun r4 =>
    (reYear4 r4).bind fun (y, r5) =>
    (skipWs1 r5).bind fun r6 =>
    (reHour r6).bind fun (hh, r7) =>
    (expectChar ':' r7).bind fun r8 =>
    (reMinute r8).bind fun (mi, r9) =>
    (expectChar ':' r9).bind fun r10 =>
    (reSecond r10).bind fun (ss, r11) =>
    if r11 = [] ∧ 1 ≤ y ∧ d ≤ daysInMonth y m ∧ ss ≤ 59 then
      some (y, m, d, hh, mi, ss)
    else none
  match r with
  | some v => .ok v
  | none => .error (.valueError "time data does not match format or is out of range")

/-- Two-digit zero padding, as in `isoformat`. -/
def pad2 (n : Nat) : String :=
  if n < 10 then "0" ++ toString n else toString n

/-- Four-digit zero padding for the year. -/
def pad4 (n : Nat) : String :=
  if n < 10 then "000" ++ toString n
  else if n < 100 then "00" ++ toString n
  else if n < 1000 then "0" ++ toString n
  else toString n

/-- `date(y, m, d).isoformat()`. -/
def isoDate (y m d : Nat) : String :=
  pad4 y ++ "-" ++ pad2 m ++ "-" ++ pad2 d

/-- `datetime(...).isoformat()` (microsecond 0, so the time part is HH:MM:SS). -/
def isoDateTime (y m d hh mi ss : Nat) : String :=
  isoDate y m d ++ "T" ++ pad2 hh ++ ":" ++ pad2 mi ++ ":" ++ pad2 ss

/-- `parse_italian_date` from `parse-orders-pdf.py` (same body in
`parse-ddt-pdf.py`): `DD/MM/YYYY` → ISO `YYYY-MM-DD`, absent or unparsable
input → `None`. -/
def parse_italian_date (date_str : Option String) : Except PyErr (Option String) :=
  match date_str with
  | none => .ok none
  | some s =>
    if s = "" ∨ pyStrip s = "" then .ok none
    else
      match strptime_dmy (pyStrip s) with
      | .ok (y, m, d) => .ok (some (isoDate y m d))
      | .error (.valueError _) => .ok none

/-- `parse_italian_datetime` from `parse-orders-pdf.py`:
`DD/MM/YYYY HH:MM:SS` → ISO `YYYY-MM-DDTHH:MM:SS`. -/
def parse_italian_datetime (date_str : Option String) : Except PyErr (Option String) :=
  match date_str with
  | none => .ok none
  | some s =>
    if s = "" ∨ pyStrip s = "" then .ok none
    else
      match strptime_dmy_hms (pyStrip s) with
      | .ok (y, m, d, hh, mi, ss) => .ok (some (isoDateTime y m d hh mi ss))
      | .error (.valueError _) => .ok none

/-! ### Basic lemmas about the string helpers -/

theorem dropWhile_eq_self_of (p : Char → Bool) (l : List Char)
    (h : ∀ c ∈ l, p c = false) : l.dropWhile p = l := by
  cases l with
  | nil => rfl
  | cons c rest => simp [List.dropWhile_cons, h c (by simp)]

theorem takeWhile_eq_self_of (p : Char → Bool) (l : List Char)
    (h : ∀ c ∈ l, p c = true) : l.takeWhile p = l := by
  induction l with
  | nil => rfl
  | cons c rest ih =>
    rw [List.takeWhile_cons, if_pos (h c (by simp)), ih fun x hx => h x (by simp [hx])]

theorem dropWhile_eq_nil_of (p : Char → Bool) (l : List Char)
    (h : ∀ c ∈ l, p c = true) : l.dropWhile p = [] := by
  induction l with
  | nil => rfl
  | cons c rest ih =>
    rw [List.dropWhile_cons, if_pos (h c (by simp)), ih fun x hx => h x (by simp [hx])]

theorem pyStripL_eq_self (l : List Char) (h : ∀ c ∈ l, isPySpace c = false) :
    pyStripL l = l := by
  unfold pyStripL
  rw [dropWhile_eq_self_of _ _ h, dropWhile_eq_self_of, List.reverse_reverse]
  intro c hc
  exact h c (List.mem_reverse.mp hc)

theorem replaceChar_not_mem (a : Char) (r l : List Char) (h : a ∉ l) :
    replaceChar a r l = l := by
  induction l with
  | nil => rfl
  | cons c rest ih =>
    have hca : ¬ (c = a) := fun he => h (he ▸ List.mem_cons_self c rest)
    have hrest : a ∉ rest := fun hm => h (List.mem_cons_of_mem c hm)
    simp [replaceChar, hca, ih hrest]

theorem replaceChar_delete (a : Char) (l : List Char) :
    replaceChar a [] l = l.filter (fun c => c ≠ a) := by
  induction l with
  | nil => rfl
  | cons c rest ih =>
    by_cases hca : c = a
    · subst hca
      simp [replaceChar, List.filter_cons, ih]
    · simp [replaceChar, hca, List.filter_cons, ih]

theorem isDigit_not_pySpace (c : Char) (h : c.isDigit = true) :
    isPySpace c = false := by
  by_contra hsp
  simp only [Bool.not_eq_false, isPySpace, decide_eq_true_eq] at hsp
  rcases hsp with h' | h' | h' | h' | h' | h' <;> subst h' <;> exact absurd h (by decide)

theorem isDigit_not_sign (c : Char) (h : c.isDigit = true) :
    c ≠ '+' ∧ c ≠ '-' := by
  constructor
  · intro he
    rw [he] at h
    exact absurd h (by decide)
  · intro he
    rw [he] at h
    exact absurd h (by decide)

theorem toLower_digit (c : Char) (h : c.isDigit = true) : c.toLower = c := by
  simp only [Char.isDigit, Bool.and_eq_true, decide_eq_true_eq] at h
  have h2 : c.toNat ≤ 57 := by
    have := h.2
    simp only [UInt32.le_def] at this
    exact this
  unfold Char.toLower
  dsimp only
  rw [if_neg]
  intro hcond
  omega

theorem underscoresOKGo_of_not_mem (prev : Option Char) (l : List Char)
    (h : '_' ∉ l) : underscoresOKGo prev l = true := by
  induction l generalizing prev with
  | nil => rfl
  | cons c rest ih =>
    have hc : ¬ c = '_' := fun he => h (by simp [he])
    simp only [underscoresOKGo, if_neg hc]
    exact ih _ fun hm => h (by simp [hm])

theorem filter_ne_underscore (l : List Char) (h : '_' ∉ l) :
    l.filter (fun c => c ≠ '_') = l := by
  refine List.filter_eq_self.mpr fun c hc => ?_
  simp only [ne_eq, decide_eq_true_eq]
  exact fun he => h (he ▸ hc)

theorem digits_head_not_word (c : Char) (rest : List Char) (hc : c.isDigit = true)
    (d : Char) (ds : List Char) (hd : d.isDigit = false) :
    ¬ ((c :: rest).map Char.toLower = d :: ds) := by
  intro he
  simp only [List.map_cons, List.cons.injEq] at he
  rw [toLower_digit c hc] at he
  rw [he.1, hd] at hc
  simp at hc

theorem pyFloat_digits (l : List Char) (h : ∀ c ∈ l, c.isDigit = true)
    (hne : l ≠ []) : pyFloat l = .ok (.num ((digitsNat l : Rat))) := by
  have hnu : '_' ∉ l := fun hm => absurd (h _ hm) (by decide)
  have hok : underscoresOK l = true := underscoresOKGo_of_not_mem none l hnu
  unfold pyFloat
  dsimp only
  rw [pyStripL_eq_self l (fun c hc => isDigit_not_pySpace c (h c hc))]
  rw [if_neg (by simp [hok]), filter_ne_underscore l hnu]
  cases l with
  | nil => exact absurd rfl hne
  | cons c rest =>
    obtain ⟨hplus, hminus⟩ := isDigit_not_sign c (h c (by simp))
    have hcd : c.isDigit = true := h c (by simp)
    have hsign : floatSign (c :: rest) = (false, c :: rest) := by
      simp [floatSign, hplus, hminus]
    have hspan : spanDigits (c :: rest) = (c :: rest, []) := by
      unfold spanDigits
      rw [takeWhile_eq_self_of _ _ h, dropWhile_eq_nil_of _ _ h]
    rw [hsign]
    dsimp only
    rw [if_neg (digits_head_not_word c rest hcd 'n' ['a', 'n'] (by decide)),
      if_neg (fun hor => hor.elim
        (digits_head_not_word c rest hcd 'i' ['n', 'f'] (by decide))
        (digits_head_not_word c rest hcd 'i'
          ['n', 'f', 'i', 'n', 'i', 't', 'y'] (by decide)))]
    simp only [floatCore, hsign, hspan]
    simp only [floatExpEnd, List.length_nil, pow_zero, digitsNat, List.foldl_nil,
      tenPow, div_one, mul_one]
    norm_num
    simp

theorem takeWhile_append_of_all (p : Char → Bool) (l1 l2 : List Char)
    (h : ∀ c ∈ l1, p c = true) : (l1 ++ l2).takeWhile p = l1 ++ l2.takeWhile p := by
  induction l1 with
  | nil => simp
  | cons c rest ih =>
    simp only [List.cons_append, List.takeWhile_cons, h c (by simp)]
    simp [ih fun x hx => h x (by simp [hx])]

theorem dropWhile_append_of_all (p : Char → Bool) (l1 l2 : List Char)
    (h : ∀ c ∈ l1, p c = true) : (l1 ++ l2).dropWhile p = l2.dropWhile p := by
  induction l1 with
  | nil => simp
  | cons c rest ih =>
    simp only [List.cons_append, List.dropWhile_cons, h c (by simp)]
    simp [ih fun x hx => h x (by simp [hx])]

theorem pyFloat_intFrac (ip fp : List Char)
    (hip : ∀ c ∈ ip, c.isDigit = true) (hfp : ∀ c ∈ fp, c.isDigit = true)
    (hipne : ip ≠ []) :
    pyFloat (ip ++ '.' :: fp) =
      .ok (.num (((digitsNat ip * 10 ^ fp.length + digitsNat fp : Nat) : Rat) /
        (10 : Rat) ^ fp.length)) := by
  have hnosp : ∀ c ∈ ip ++ '.' :: fp, isPySpace c = false := by
    intro c hc
    rcases List.mem_append.mp hc with h | h
    · exact isDigit_not_pySpace c (hip c h)
    · rcases List.mem_cons.mp h with h | h
      · rw [h]; decide
      · exact isDigit_not_pySpace c (hfp c h)
  have hnu : '_' ∉ ip ++ '.' :: fp := by
    intro hm
    rcases List.mem_append.mp hm with h | h
    · exact absurd (hip _ h) (by decide)
    · rcases List.mem_cons.mp h with h | h
      · exact absurd h (by decide)
      · exact absurd (hfp _ h) (by decide)
  have hok : underscoresOK (ip ++ '.' :: fp) = true :=
    underscoresOKGo_of_not_mem none _ hnu
  unfold pyFloat
  dsimp only
  rw [pyStripL_eq_self _ hnosp]
  rw [if_neg (by simp [hok]), filter_ne_underscore _ hnu]
  cases ip with
  | nil => exact absurd rfl hipne
  | cons c rest =>
    obtain ⟨hplus, hminus⟩ := isDigit_not_sign c (hip c (by simp))
    have hcd : c.isDigit = true := hip c (by simp)
    have hsign : floatSign ((c :: rest) ++ '.' :: fp) = (false, (c :: rest) ++ '.' :: fp) := by
      simp [floatSign, hplus, hminus]
    have hword1 : ¬ (((c :: rest) ++ '.' :: fp).map Char.toLower = 'n' :: ['a', 'n']) := by
      rw [List.cons_append]
      exact digits_head_not_word c (rest ++ '.' :: fp) hcd 'n' ['a', 'n'] (by decide)
    have hword2 : ¬ (((c :: rest) ++ '.' :: fp).map Char.toLower = 'i' :: ['n', 'f']) := by
      rw [List.cons_append]
      exact digits_head_not_word c (rest ++ '.' :: fp) hcd 'i' ['n', 'f'] (by decide)
    have hword3 : ¬ (((c :: rest) ++ '.' :: fp).map Char.toLower =
        'i' :: ['n', 'f', 'i', 'n', 'i', 't', 'y']) := by
      rw [List.cons_append]
      exact digits_head_not_word c (rest ++ '.' :: fp) hcd 'i'
        ['n', 'f', 'i', 'n', 'i', 't', 'y'] (by decide)
    have hspan : spanDigits ((c :: rest) ++ '.' :: fp) = (c :: rest, '.' :: fp) := by
      unfold spanDigits
      rw [takeWhile_append_of_all _ _ _ hip, dropWhile_append_of_all _ _ _ hip]
      simp [List.takeWhile_cons, List.dropWhile_cons]
    have hspanf : spanDigits fp = (fp, []) := by
      unfold spanDigits
      rw [takeWhile_eq_self_of _ _ hfp, dropWhile_eq_nil_of _ _ hfp]
    rw [hsign]
    dsimp only
    rw [if_neg hword1, if_neg (fun hor => hor.elim hword2 hword3)]
    simp only [floatCore, hsign, hspan, hspanf]
    simp only [floatExpEnd, tenPow, pow_zero, mul_one]
    rw [if_neg (by simp)]
    simp only [Except.ok.injEq, PyFloat.num.injEq]
    push_cast
    ring

/-- C4 helper: the locale decimal parser never propagates an exception. -/
theorem parse_italian_decimal_total (v : Option String) :
    ∃ r, parse_italian_decimal v = .ok r := by
  cases v with
  | none => exact ⟨none, rfl⟩
  | some s =>
    simp only [parse_italian_decimal]
    split
    · exact ⟨none, rfl⟩
    · cases hpf : pyFloat (replaceChar ',' ['.']
        (replaceChar '.' [] (pyStripL (replaceChar '%' [] (replaceChar '€' [] s.toList))))) with
      | ok q => exact ⟨some q, rfl⟩
      | error e => cases e with
        | valueError msg => exact ⟨none, rfl⟩

/-- C4 helper: the date parser never propagates an exception. -/
theorem parse_italian_date_total (v : Option String) :
    ∃ r, parse_italian_date v = .ok r := by
  cases v with
  | none => exact ⟨none, rfl⟩
  | some s =>
    simp only [parse_italian_date]
    split
    · exact ⟨none, rfl⟩
    · cases hpf : strptime_dmy (pyStrip s) with
      | ok v =>
        obtain ⟨y, m, d⟩ := v
        exact ⟨some (isoDate y m d), rfl⟩
      | error e => cases e with
        | valueError msg => exact ⟨none, rfl⟩

/-- C4 helper: the date-time parser never propagates an exception. -/
theorem parse_italian_datetime_total (v : Option String) :
    ∃ r, parse_italian_datetime v = .ok r := by
  cases v with
  | none => exact ⟨none, rfl⟩
  | some s =>
    simp only [parse_italian_datetime]
    split
    · exact ⟨none, rfl⟩
    · cases hpf : strptime_dmy_hms (pyStrip s) with
      | ok v =>
        obtain ⟨y, m, d, hh, mi, ss⟩ := v
        exact ⟨some (isoDateTime y m d hh mi ss), rfl⟩
      | error e => cases e with
        | valueError msg => exact ⟨none, rfl⟩

/-- C4: for every input (including absent, empty and whitespace-only input)
the locale decimal parser, the date parser and the date-time parser return a
value — a parsed result or `None` — and never propagate an exception. -/
theorem c4_field_parser_totality (v : Option String) :
    (∃ r, parse_italian_decimal v = .ok r) ∧
    (∃ r, parse_italian_date v = .ok r) ∧
    (∃ r, parse_italian_datetime v = .ok r) :=
  ⟨parse_italian_decimal_total v, parse_italian_date_total v,
    parse_italian_datetime_total v⟩

/-- C5: the locale round trips — `"1.234,56 €"` parses to 1234.56,
`"21/01/2026"` to ISO date `2026-01-21`, and `"20/01/2026 12:04:22"` to ISO
date-time `2026-01-20T12:04:22`. -/
theorem c5_locale_round_trips :
    parse_italian_decimal (some "1.234,56 €") =
      .ok (some (PyFloat.num ((123456 : Rat) / 100))) ∧
    parse_italian_date (some "21/01/2026") = .ok (some "2026-01-21") ∧
    parse_italian_datetime (some "20/01/2026 12:04:22") =
      .ok (some "2026-01-20T12:04:22") := by
  refine ⟨?_, by decide, by decide⟩
  have harg : replaceChar ',' ['.'] (replaceChar '.' []
      (pyStripL (replaceChar '%' [] (replaceChar '€' [] "1.234,56 €".toList)))) =
      ['1', '2', '3', '4'] ++ '.' :: ['5', '6'] := by decide
  simp only [parse_italian_decimal]
  rw [if_neg (by decide : ¬("1.234,56 €" = "")), harg,
    pyFloat_intFrac _ _ (by decide) (by decide) (by decide)]
  have h1 : digitsNat ['1', '2', '3', '4'] = 1234 := by decide
  have h2 : digitsNat ['5', '6'] = 56 := by decide
  rw [h1, h2]
  norm_num

/-- On a non-empty input of digits and dots (no comma), the decimal parser
returns the concatenation of the digit groups. -/
theorem parse_decimal_dot_only (s : String) (hne : s ≠ "")
    (hchars : ∀ c ∈ s.toList, c.isDigit = true ∨ c = '.')
    (hdig : ∃ c ∈ s.toList, c.isDigit = true) :
    parse_italian_decimal (some s) =
      .ok (some (.num ((digitsNat (s.toList.filter Char.isDigit) : Rat)))) := by
  have heuro : replaceChar '€' [] s.toList = s.toList := by
    refine replaceChar_not_mem _ _ _ fun hm => ?_
    rcases hchars _ hm with h | h
    · exact absurd h (by decide)
    · exact absurd h (by decide)
  have hpct : replaceChar '%' [] s.toList = s.toList := by
    refine replaceChar_not_mem _ _ _ fun hm => ?_
    rcases hchars _ hm with h | h
    · exact absurd h (by decide)
    · exact absurd h (by decide)
  have hstrip : pyStripL s.toList = s.toList := by
    refine pyStripL_eq_self _ fun c hc => ?_
    rcases hchars c hc with h | h
    · exact isDigit_not_pySpace c h
    · rw [h]; decide
  have hdot : replaceChar '.' [] s.toList = s.toList.filter (fun c => c ≠ '.') :=
    replaceChar_delete _ _
  have hfe : s.toList.filter (fun c => c ≠ '.') = s.toList.filter Char.isDigit := by
    refine List.filter_congr fun c hc => ?_
    rcases hchars c hc with h | h
    · have : c ≠ '.' := fun he => by rw [he] at h; exact absurd h (by decide)
      simp [this, h]
    · rw [h]; decide
  have hcomma : replaceChar ',' ['.'] (s.toList.filter Char.isDigit) =
      s.toList.filter Char.isDigit := by
    refine replaceChar_not_mem _ _ _ fun hm => ?_
    have hm' := (List.mem_filter.mp hm).2
    exact absurd hm' (by decide)
  obtain ⟨cd, hcd, hcdd⟩ := hdig
  have hfne : s.toList.filter Char.isDigit ≠ [] := by
    intro hnil
    have : cd ∈ s.toList.filter Char.isDigit := List.mem_filter.mpr ⟨hcd, hcdd⟩
    rw [hnil] at this
    exact absurd this (List.not_mem_nil cd)
  have hfd : ∀ c ∈ s.toList.filter Char.isDigit, c.isDigit = true :=
    fun c hc => (List.mem_filter.mp hc).2
  simp only [parse_italian_decimal]
  rw [if_neg hne, heuro, hpct, hstrip, hdot, hfe, hcomma,
    pyFloat_digits _ hfd hfne]

/-- C9 (implicit): on a non-empty input whose only punctuation is dots (no
comma), the decimal parser strips every dot as a thousands separator, so the
result is the concatenation of the digit groups — e.g. `"1.5"` parses to 15,
not 1.5. -/
theorem c9_dot_only_reads_as_grouped_integer (s : String) (hne : s ≠ "")
    (hchars : ∀ c ∈ s.toList, c.isDigit = true ∨ c = '.')
    (hdig : ∃ c ∈ s.toList, c.isDigit = true) :
    parse_italian_decimal (some s) =
      .ok (some (.num ((digitsNat (s.toList.filter Char.isDigit) : Rat)))) :=
  parse_decimal_dot_only s hne hchars hdig

/-- C9 witness: the concrete input `"1.5"` parses to 15. -/
theorem c9_dot_only_reads_as_grouped_integer_witness :
    parse_italian_decimal (some "1.5") = .ok (some (PyFloat.num (15 : Rat))) := by
  rw [c9_dot_only_reads_as_grouped_integer "1.5" (by decide) (by decide) (by decide)]
  have h : digitsNat ("1.5".toList.filter Char.isDigit) = 15 := by decide
  rw [h]
  norm_num

/-! ### Data model: tables and pages

A cell is `Option String` (pdfplumber yields `None` cells), a row a list of
cells, a table a list of rows (row 0 the header).  A page carries the list of
tables pdfplumber detects on it: `extract_tables()` returns that list,
`extract_table()` its first element or `None`. -/

/-- One table cell. -/
abbrev Cell := Option String

/-- One table row. -/
abbrev Row := List Cell

/-- One extracted table; row 0 is the header row. -/
abbrev Table := List Row

/-- One PDF page, by the tables pdfplumber detects on it. -/
structure Page where
  tables : List Table
deriving DecidableEq, Repr

/-- `page.extract_table()`: the first table, or `None`. -/
def extract_table (p : Page) : Option Table :=
  p.tables.head?

/-- Status field of the cycle-size diagnostic. -/
inductive DetectStatus where
  | ok
  | changed
  | detectionFailed
deriving DecidableEq, Repr

/-- Diagnostics written to stderr, distinct from the record stream. -/
inductive Diag where
  | cycleWarning (parser : String) (detected expected : Nat) (status : DetectStatus)
  | rowError (cycle row : Nat)
  | missingTables (cycle : Nat)
  | missingPairTables (pair : Nat)
  | invalidQuantity (pair row : Nat)
  | invalidUnitPrice (pair row : Nat)
  | invalidDiscount (pair row : Nat)
deriving DecidableEq, Repr

/-- Anchor test of `PricesPDFParser._detect_cycle_size`: the first table is
non-empty, its header row is non-empty, and the first column's header,
stripped and upper-cased, equals `ID`. -/
def pricesAnchor (p : Page) : Bool :=
  match extract_table p with
  | none => false
  | some table =>
    if table ≠ [] then
      match table with
      | header_row :: _ =>
        if header_row ≠ [] then
          pyUpper (pyStrip ((header_row.headD none).getD "")) = "ID"
        else false
      | [] => false
    else false

/-- Anchor test of `_detect_cycle_size` in `parse-ddt-pdf.py`: the first table
is non-empty and ANY header cell, stripped and upper-cased, contains `DDT`. -/
def ddtAnchor (p : Page) : Bool :=
  match p.tables with
  | [] => false
  | t :: _ =>
    match t with
    | [] => false
    | header_row :: _ =>
      (header_row.map (fun h => pyUpper (pyStrip (h.getD "")))).any
        (fun h => substrOf "DDT" h)

/-- The detection loop: walk pages accumulating anchor page indices, breaking
as soon as two are found. -/
def scanAnchors (anchor : Page → Bool) : Nat → List Page → List Nat → List Nat
  | _, [], acc => acc
  | i, p :: ps, acc =>
    let acc' := if anchor p then acc ++ [i] else acc
    if acc'.length ≥ 2 then acc' else scanAnchors anchor (i + 1) ps acc'

/-- All anchor page indices, in page order, counting from `i`. -/
def anchorIdxFrom (anchor : Page → Bool) (i : Nat) : List Page → List Nat
  | [] => []
  | p :: ps =>
    if anchor p then i :: anchorIdxFrom anchor (i + 1) ps
    else anchorIdxFrom anchor (i + 1) ps

/-- `PricesPDFParser._detect_cycle_size`: difference of the first two anchor
pages, `OK`/`CHANGED` against the expected size 3, or the fallback
`(3, DETECTION_FAILED)`. -/
def pricesDetect (pages : List Page) : Nat × DetectStatus :=
  let expected := 3
  match scanAnchors pricesAnchor 0 pages [] with
  | a :: b :: _ => (b - a, if b - a = expected then .ok else .changed)
  | _ => (expected, .detectionFailed)

/-- `_detect_cycle_size` from `parse-ddt-pdf.py`; expected size 6. -/
def ddtDetect (pages : List Page) : Nat × DetectStatus :=
  let expected := 6
  match scanAnchors ddtAnchor 0 pages [] with
  | a :: b :: _ => (b - a, if b - a = expected then .ok else .changed)
  | _ => (expected, .detectionFailed)

/-- The break-at-two scan returns exactly the first two anchor indices. -/
theorem scanAnchors_take_two (anchor : Page → Bool) (ps : List Page) :
    ∀ (i : Nat) (acc : List Nat), acc.length ≤ 1 →
      scanAnchors anchor i ps acc = (acc ++ anchorIdxFrom anchor i ps).take 2 := by
  induction ps with
  | nil =>
    intro i acc hacc
    simp only [scanAnchors, anchorIdxFrom, List.append_nil]
    exact (List.take_of_length_le (by omega)).symm
  | cons p ps ih =>
    intro i acc hacc
    simp only [scanAnchors, anchorIdxFrom]
    by_cases hp : anchor p = true
    · simp only [hp, if_true]
      by_cases hlen : (acc ++ [i]).length ≥ 2
      · rw [if_pos hlen]
        have h1 : acc.length = 1 := by
          simp only [List.length_append, List.length_singleton] at hlen
          omega
        obtain ⟨x, hx⟩ : ∃ x, acc = [x] := by
          cases acc with
          | nil => exact absurd h1 (by simp)
          | cons a t =>
            cases t with
            | nil => exact ⟨a, rfl⟩
            | cons b t2 => exact absurd h1 (by simp)
        subst hx
        simp [List.take_succ_cons]
      · rw [if_neg hlen]
        have h0 : acc = [] := by
          cases acc with
          | nil => rfl
          | cons a t =>
            exfalso
            simp only [List.length_append, List.length_cons, List.length_singleton] at hlen
            omega
        subst h0
        simp only [List.nil_append]
        rw [ih (i + 1) [i] (by simp)]
        simp
    · simp only [Bool.not_eq_true] at hp
      simp only [hp]
      simp only [Bool.false_eq_true, if_false]
      rw [if_neg (by omega : ¬ acc.length ≥ 2)]
      exact ih (i + 1) acc hacc

/-- Claim-side anchor reading for the DDT detector ("the anchor header appears
in the first column of the first table's header row"): `DDT` occurs in the
FIRST column's header only. -/
def claimFirstColDDTAnchor (p : Page) : Bool :=
  match p.tables with
  | [] => false
  | t :: _ =>
    match t with
    | [] => false
    | header_row :: _ => substrOf "DDT" (pyUpper (pyStrip ((header_row.headD none).getD "")))

/-- C1 (amended): for the prices detector the anchor is `ID` as the first
column's header, exactly as claimed; for the DDT detector the anchor `DDT` may
occur in ANY column of the header row.  In both, when the first two matching
pages are `p` and `p+k` the detector returns `k` with status `OK` iff `k`
equals the expected size (3 resp. 6) and `CHANGED` otherwise; with fewer than
two matching pages it returns the default with `DETECTION_FAILED`; it always
returns. -/
theorem c1_cycle_size_detection (pages : List Page) (p k : Nat) (rest : List Nat) :
    (anchorIdxFrom pricesAnchor 0 pages = p :: (p + k) :: rest →
      pricesDetect pages = (k, if k = 3 then .ok else .changed)) ∧
    ((anchorIdxFrom pricesAnchor 0 pages).length ≤ 1 →
      pricesDetect pages = (3, .detectionFailed)) ∧
    (anchorIdxFrom ddtAnchor 0 pages = p :: (p + k) :: rest →
      ddtDetect pages = (k, if k = 6 then .ok else .changed)) ∧
    ((anchorIdxFrom ddtAnchor 0 pages).length ≤ 1 →
      ddtDetect pages = (6, .detectionFailed)) := by
  have hp := scanAnchors_take_two pricesAnchor pages 0 [] (by simp)
  have hd := scanAnchors_take_two ddtAnchor pages 0 [] (by simp)
  rw [List.nil_append] at hp hd
  refine ⟨fun h => ?_, fun h => ?_, fun h => ?_, fun h => ?_⟩
  · simp only [pricesDetect, hp, h, List.take]
    simp
  · simp only [pricesDetect, hp]
    rcases hl : anchorIdxFrom pricesAnchor 0 pages with _ | ⟨a, _ | ⟨b, t⟩⟩
    · simp
    · simp
    · rw [hl] at h; simp at h
  · simp only [ddtDetect, hd, h, List.take]
    simp
  · simp only [ddtDetect, hd]
    rcases hl : anchorIdxFrom ddtAnchor 0 pages with _ | ⟨a, _ | ⟨b, t⟩⟩
    · simp
    · simp
    · rw [hl] at h; simp at h

/-- C1 witness: a 7-page prices document with first-column `ID` anchors at
pages 0 and 3 detects cycle size 3 with `OK`; a 2-page anchorless document
falls back to `(3, DETECTION_FAILED)`; likewise for the DDT detector with
anchors at 0 and 6. -/
theorem c1_cycle_size_detection_witness :
    pricesDetect (⟨[[[some "ID", some "X"]]]⟩ :: ⟨[]⟩ :: ⟨[]⟩ ::
        ⟨[[[some "id "]]]⟩ :: ⟨[]⟩ :: ⟨[]⟩ :: ⟨[]⟩ :: []) = (3, .ok) ∧
    pricesDetect (⟨[]⟩ :: ⟨[]⟩ :: []) = (3, .detectionFailed) ∧
    ddtDetect (⟨[[[some "PDF DDT", some "ID"]]]⟩ :: ⟨[]⟩ :: ⟨[]⟩ :: ⟨[]⟩ :: ⟨[]⟩ ::
        ⟨[]⟩ :: ⟨[[[some "pdf ddt"]]]⟩ :: []) = (6, .ok) ∧
    ddtDetect (⟨[]⟩ :: ⟨[]⟩ :: []) = (6, .detectionFailed) := by
  refine ⟨?_, ?_, ?_, ?_⟩
  · exact ((c1_cycle_size_detection _ 0 3 []).1 (by decide))
  · exact ((c1_cycle_size_detection _ 0 0 []).2.1 (by decide))
  · exact ((c1_cycle_size_detection _ 0 6 []).2.2.1 (by decide))
  · exact ((c1_cycle_size_detection _ 0 0 []).2.2.2 (by decide))

/-- C1 counterexample: the claim as stated — anchor in the FIRST column at the
first two pages `p`, `p+k` implies detected size `k` — fails for the DDT
detector: here `DDT` appears in the first column only at pages 1 and 3
(`k = 2`), but page 0 carries `DDT` in its second column, so the code detects
size 1 (status `CHANGED`), not 2. -/
theorem c1_cycle_size_detection_counterexample :
    anchorIdxFrom claimFirstColDDTAnchor 0
        (⟨[[[some "FOO", some "DDT BAR"]]]⟩ :: ⟨[[[some "DDT"]]]⟩ ::
          ⟨[[[some "X"]]]⟩ :: ⟨[[[some "DDT"]]]⟩ :: []) = [1, 3] ∧
    ddtDetect (⟨[[[some "FOO", some "DDT BAR"]]]⟩ :: ⟨[[[some "DDT"]]]⟩ ::
          ⟨[[[some "X"]]]⟩ :: ⟨[[[some "DDT"]]]⟩ :: []) = (1, .changed) ∧
    (1 : Nat) ≠ 3 - 1 := by
  refine ⟨by decide, by decide, by decide⟩

/-! ### `extract_tracking_info` from `parse-ddt-pdf.py`

The three regexes the function uses — `href\s*=\s*["\x27]([^"\x27]+)["\x27]`,
`>([^<]+)</a>` (both IGNORECASE), `<[^>]+>` and `&[a-z]+;` for `re.sub`, and
the anchored courier patterns `^name\s+([0-9]+ or [A-Z0-9]+)` — are embedded
as leftmost-match scanners.  Each greedy character class in these patterns
stops at a character the following literal cannot match, so greedy scanning
without backtracking coincides with the regex engine. -/

/-- Case-insensitive literal match; returns the rest on success. -/
def matchCI : List Char → List Char → Option (List Char)
  | [], cs => some cs
  | _ :: _, [] => none
  | a :: as, c :: cs => if c.toLower = a.toLower then matchCI as cs else none

/-- Try the href pattern at this position; the capture is the text between the
quotes (either quote character may open or close it). -/
def hrefAt (cs : List Char) : Option (List Char) :=
  (matchCI "href".toList cs).bind fun r1 =>
  (expectChar '=' (r1.dropWhile isPySpace)).bind fun r3 =>
  match r3.dropWhile isPySpace with
  | q :: r5 =>
    if q = '"' ∨ q = '\'' then
      let content := r5.takeWhile (fun c => ¬ (c = '"' ∨ c = '\''))
      let rest := r5.dropWhile (fun c => ¬ (c = '"' ∨ c = '\''))
      if content ≠ [] ∧ rest ≠ [] then some content else none
    else none
  | [] => none

/-- `re.search` of the href pattern: leftmost match. -/
def findHrefL : List Char → Option (List Char)
  | [] => none
  | c :: rest =>
    match hrefAt (c :: rest) with
    | some cap => some cap
    | none => findHrefL rest

/-- Try `>([^<]+)</a>` at this position. -/
def tagTextAt (cs : List Char) : Option (List Char) :=
  (expectChar '>' cs).bind fun r1 =>
  let content := r1.takeWhile (fun c => c ≠ '<')
  let rest := r1.dropWhile (fun c => c ≠ '<')
  if content ≠ [] then (matchCI "</a>".toList rest).map (fun _ => content)
  else none

/-- `re.search` of `>([^<]+)</a>`: leftmost match. -/
def findTagTextL : List Char → Option (List Char)
  | [] => none
  | c :: rest =>
    match tagTextAt (c :: rest) with
    | some cap => some cap
    | none => findTagTextL rest

/-- `re.sub(r'<[^>]+>', '', ...)`: drop every non-overlapping tag, scanning
left to right (fuel = list length bounds the recursion). -/
def removeTagsF : Nat → List Char → List Char
  | 0, l => l
  | _ + 1, [] => []
  | fuel + 1, c :: rest =>
    if c = '<' then
      let content := rest.takeWhile (fun x => x ≠ '>')
      match rest.dropWhile (fun x => x ≠ '>') with
      | _ :: after =>
        if content ≠ [] then removeTagsF fuel after else c :: removeTagsF fuel rest
      | [] => c :: removeTagsF fuel rest
    else c :: removeTagsF fuel rest

/-- `re.sub(r'&[a-z]+;', '', ...)`: drop every HTML entity. -/
def removeEntitiesF : Nat → List Char → List Char
  | 0, l => l
  | _ + 1, [] => []
  | fuel + 1, c :: rest =>
    if c = '&' then
      let content := rest.takeWhile Char.isLower
      match rest.dropWhile Char.isLower with
      | g :: after =>
        if g = ';' ∧ content ≠ [] then removeEntitiesF fuel after
        else c :: removeEntitiesF fuel rest
      | [] => c :: removeEntitiesF fuel rest
    else c :: removeEntitiesF fuel rest

/-- Python `str.split()` with no argument: words between whitespace runs. -/
def pySplitF : Nat → List Char → List (List Char)
  | 0, _ => []
  | fuel + 1, l =>
    match l.dropWhile isPySpace with
    | [] => []
    | c :: r =>
      ((c :: r).takeWhile (fun x => ¬ isPySpace x)) ::
        pySplitF fuel ((c :: r).dropWhile (fun x => ¬ isPySpace x))

/-- The courier prefix vocabulary, in the code's dictionary order; the flag
records whether the capture class is `[0-9]+` (fedex) or `[A-Z0-9]+` with
IGNORECASE (all others). -/
def courierSpec : List (String × Bool) :=
  [("fedex", true), ("ups", false), ("dhl", false), ("tnt", false),
   ("gls", false), ("bartolini", false), ("sda", false)]

/-- Match `^name\s+(class+)` at the start of the text. -/
def courierCapture (name : String) (digitsOnly : Bool) (t : List Char) :
    Option (List Char) :=
  (matchCI name.toList t).bind fun r1 =>
  if r1.takeWhile isPySpace = [] then none
  else
    let cap := (r1.dropWhile isPySpace).takeWhile
      (fun c => if digitsOnly then c.isDigit else c.isAlphanum)
    if cap = [] then none else some cap

/-- First courier in dictionary order whose pattern matches; yields the
upper-cased courier name and the captured identifier. -/
def matchCourierGo : List (String × Bool) → List Char → Option (String × List Char)
  | [], _ => none
  | (name, digitsOnly) :: rest, t =>
    match courierCapture name digitsOnly t with
    | some cap => some (pyUpper name, cap)
    | none => matchCourierGo rest t

/-- The per-courier tracking URL templates of `extract_tracking_info`;
`TNT` has no template, so it yields no synthesized URL. -/
def courierURL (courier tn : String) : Option String :=
  if courier = "FEDEX" then
    some ("https://www.fedex.com/fedextrack/?trknbr=" ++ tn ++ "&locale=it_IT")
  else if courier = "UPS" then
    some ("https://www.ups.com/track?loc=it_IT&tracknum=" ++ tn)
  else if courier = "DHL" then
    some ("https://www.dhl.com/it-it/home/tracking/tracking-express.html?submit=1&tracking-id=" ++ tn)
  else if courier = "GLS" then
    some ("https://gls-group.eu/IT/it/ricerca-pacchi?match=" ++ tn)
  else if courier = "BARTOLINI" ∨ courier = "BRT" then
    some ("https://vas.brt.it/vas/sped_det_show.hsm?brt_brtCode=" ++ tn)
  else if courier = "SDA" then
    some ("https://www.sda.it/wps/portal/Servizi_online/dettaglio-spedizione?locale=it&tracing.letteraVettura=" ++ tn)
  else none

/-- `re.sub(r'\s+', '', ...)`: remove all whitespace. -/
def removeAllWs (l : List Char) : List Char :=
  l.filter (fun c => ¬ isPySpace c)

/-- Final URL choice of `extract_tracking_info`: keep the href-extracted URL
when truthy, otherwise synthesize from the courier template when both courier
and identifier are known (leaving the extracted value when no template
exists). -/
def chooseTrackingURL (extracted_url courier_name tracking_number : Option String) :
    Option String :=
  if truthy extracted_url = false ∧ tracking_number.isSome = true ∧
      courier_name.isSome = true then
    match courier_name, tracking_number with
    | some cn, some tn =>
      match courierURL cn tn with
      | some u => some u
      | none => extracted_url
    | _, _ => extracted_url
  else extracted_url

theorem chooseTrackingURL_truthy (e a b : Option String) (h : truthy e = true) :
    chooseTrackingURL e a b = e := by
  have hn : ¬ (truthy e = false ∧ b.isSome = true ∧ a.isSome = true) := by
    intro hc
    rw [h] at hc
    exact absurd hc.1 (by decide)
  unfold chooseTrackingURL
  rw [if_neg hn]

/-- `extract_tracking_info` from `parse-ddt-pdf.py`: returns
(tracking_number, courier_name, tracking_url). -/
def extract_tracking_info (text : Option String) :
    Option String × Option String × Option String :=
  match text with
  | none => (none, none, none)
  | some t0 =>
    if t0 = "" ∨ pyStrip t0 = "" then (none, none, none)
    else
      let extracted_url : Option String :=
        (findHrefL t0.toList).map (fun u => String.mk (removeAllWs (pyStripL u)))
      let t1 : List Char :=
        match findTagTextL t0.toList with
        | some inner => inner
        | none => t0.toList
      let t2 := pyStripL t1
      let t3 := removeTagsF t2.length t2
      let t4 := removeEntitiesF t3.length t3
      let t5 := (pyStripL t4).map Char.toLower
      let cm := matchCourierGo courierSpec t5
      let courier_name : Option String := cm.map (fun x => x.1)
      let tracking_number : Option String :=
        match cm with
        | some (_, cap) => some (String.mk cap)
        | none =>
          match (pySplitF t5.length t5).getLast? with
          | some w => if w.any Char.isDigit then some (String.mk w) else none
          | none => none
      (tracking_number, courier_name,
        chooseTrackingURL extracted_url courier_name tracking_number)

/-- C7 (amended): `"fedex 445291890750"` resolves provider FEDEX, identifier
`445291890750` and the synthesized FedEx template URL; and whenever the input
matches the embedded-href pattern with a capture that is non-empty after
whitespace removal, the returned tracking URL is that captured link with all
whitespace characters removed (hence verbatim exactly when the link contains
no whitespace), never a synthesized one. -/
theorem c7_tracking_extraction (s : String) (u : List Char)
    (hs : ¬ (s = "" ∨ pyStrip s = ""))
    (hh : findHrefL s.toList = some u)
    (hne : removeAllWs (pyStripL u) ≠ []) :
    extract_tracking_info (some "fedex 445291890750") =
      (some "445291890750", some "FEDEX",
        some "https://www.fedex.com/fedextrack/?trknbr=445291890750&locale=it_IT") ∧
    (extract_tracking_info (some s)).2.2 = some (String.mk (removeAllWs (pyStripL u))) := by
  constructor
  · decide
  · simp only [extract_tracking_info]
    rw [if_neg hs, hh]
    have htr : truthy (some (String.mk (removeAllWs (pyStripL u)))) = true := by
      simp only [truthy, ne_eq, decide_eq_true_eq]
      intro he
      apply hne
      have hd : (String.mk (removeAllWs (pyStripL u))).data = ("" : String).data := by
        rw [he]
      simpa using hd
    simp only [Option.map_some']
    rw [chooseTrackingURL_truthy _ _ _ htr]

/-- C7 witness: the amended theorem applied at a concrete markup input whose
href link is whitespace-free, so it is returned verbatim. -/
theorem c7_tracking_extraction_witness :
    (extract_tracking_info
        (some "<a href=\"https://www.fedex.com/t?x=1\">fedex 445291890750</a>")).2.2 =
      some "https://www.fedex.com/t?x=1" := by
  have h := (c7_tracking_extraction "<a href=\"https://www.fedex.com/t?x=1\">fedex 445291890750</a>"
    ("https://www.fedex.com/t?x=1".toList) (by decide) (by decide) (by decide)).2
  simpa using h

/-- C7 counterexample: with an embedded href whose link contains a space, the
extractor returns the link with the whitespace removed — not verbatim as the
claim states. -/
theorem c7_tracking_extraction_counterexample :
    extract_tracking_info (some "<a href=\"http://t.co/a b\">fedex 1</a>") =
      (some "1", some "FEDEX", some "http://t.co/ab") ∧
    findHrefL ("<a href=\"http://t.co/a b\">fedex 1</a>").toList =
      some ("http://t.co/a b").toList ∧
    "http://t.co/ab" ≠ "http://t.co/a b" := by
  refine ⟨by decide, by decide, by decide⟩

/-! ### `parse-orders-pdf.py`: header-matched column extraction and the
7-page-cycle streaming driver -/

/-- Inner loop of `get_column_value`: walk the header row; at the first truthy
header containing the target (case-insensitively), read that column of the
data row — unless the column index is beyond the data row, in which case the
loop continues with the following headers. -/
def gcvFind (header_text : String) (data_row : Row) : Row → Nat → Option String
  | [], _ => none
  | h :: hs, idx =>
    if truthy h = true ∧ substrOf (pyUpper header_text) (pyUpper (h.getD "")) = true then
      if idx < data_row.length then
        match data_row.getD idx none with
        | none => none
        | some v => if pyStrip v = "" then none else some (pyStrip v)
      else gcvFind header_text data_row hs (idx + 1)
    else gcvFind header_text data_row hs (idx + 1)

/-- `get_column_value` from `parse-orders-pdf.py`: resolve a cell by
header-text match; `None` on a missing table, header-only table, out-of-range
row, unmatched header, or empty cell. -/
def get_column_value (table : Table) (row_idx : Nat) (header_text : String) :
    Option String :=
  if table = [] ∨ table.length < 2 then none
  else if table.length ≤ row_idx then none
  else gcvFind header_text (table.getD row_idx []) (table.headD []) 0

/-- `re.sub(r"\s+", " ", ...)`: collapse every whitespace run to one space
(the flag records whether the previous character was part of a run). -/
def collapseWsGo : Bool → List Char → List Char
  | _, [] => []
  | prev, c :: rest =>
    if isPySpace c then
      if prev then collapseWsGo true rest else ' ' :: collapseWsGo true rest
    else c :: collapseWsGo false rest

/-- `normalize_multiline` from `parse-orders-pdf.py`. -/
def normalize_multiline (text : Option String) : Option String :=
  match text with
  | none => none
  | some t =>
    if t = "" then none
    else some (String.mk (collapseWsGo false (pyStripL t.toList)))

/-- `ParsedOrder` from `parse-orders-pdf.py` (20 fields). -/
structure ParsedOrder where
  id : String
  order_number : Option String
  customer_profile_id : Option String
  customer_name : Option String
  delivery_name : Option String
  delivery_address : Option String
  creation_date : String
  delivery_date : Option String
  remaining_sales_financial : Option String
  customer_reference : Option String
  sales_status : Option String
  order_type : Option String
  document_status : Option String
  sales_origin : Option String
  transfer_status : Option String
  transfer_date : Option String
  completion_date : Option String
  discount_percent : Option String
  gross_amount : Option String
  total_amount : Option String
deriving DecidableEq, Repr

/-- One row of the orders per-cycle loop body: `.ok none` for the `continue`
skips (absent or sentinel id), `.error` for the raised `ValueError` on a
missing creation date, `.ok (some record)` on success. -/
def ordersRowStep (tables : List Table) (row_idx : Nat) :
    Except PyErr (Option ParsedOrder) :=
  let t0 := tables.getD 0 []
  let order_number := get_column_value t0 row_idx "ID DI VENDITA"
  let customer_profile_id := get_column_value t0 row_idx "PROFILO CLIENTE"
  let customer_name := get_column_value t0 row_idx "NOME VENDITE"
  match get_column_value t0 row_idx "ID" with
  | none => .ok none
  | some oid =>
    if oid = "" then .ok none
    else if oid = "0" then .ok none
    else
      let t1 := tables.getD 1 []
      let delivery_name := get_column_value t1 row_idx "NOME DI CONSEGNA"
      let delivery_address :=
        normalize_multiline (get_column_value t1 row_idx "INDIRIZZO DI CONSEGNA")
      let t2 := tables.getD 2 []
      match parse_italian_datetime (get_column_value t2 row_idx "DATA DI CREAZIONE") with
      | .error e => .error e
      | .ok none =>
        .error (.valueError ("Missing required field: creation_date for order " ++ oid))
      | .ok (some creation_date) =>
        match parse_italian_date (get_column_value t2 row_idx "DATA DI CONSEGNA") with
        | .error e => .error e
        | .ok delivery_date =>
          let remaining_sales_financial :=
            get_column_value t2 row_idx "RIMANI VENDITE FINANZIARIE"
          let t3 := tables.getD 3 []
          let customer_reference := get_column_value t3 row_idx "RIFERIMENTO CLIENTE"
          let sales_status := get_column_value t3 row_idx "STATO DELLE VENDITE"
          let order_type := get_column_value t3 row_idx "TIPO DI ORDINE"
          let document_status := get_column_value t3 row_idx "STATO DEL DOCUMENTO"
          let t4 := tables.getD 4 []
          let sales_origin := get_column_value t4 row_idx "ORIGINE VENDITE"
          let transfer_status := get_column_value t4 row_idx "STATO DEL TRASFERIMENTO"
          match parse_italian_date (get_column_value t4 row_idx "DATA DI TRASFERIMENTO") with
          | .error e => .error e
          | .ok transfer_date =>
            let t5 := tables.getD 5 []
            match parse_italian_date (get_column_value t5 row_idx "DATA DI COMPLETAMENTO") with
            | .error e => .error e
            | .ok completion_date =>
              let discount_percent := get_column_value t5 row_idx "APPLICA SCONTO"
              let gross_amount := get_column_value t5 row_idx "IMPORTO LORDO"
              let t6 := tables.getD 6 []
              let total_amount := get_column_value t6 row_idx "IMPORTO TOTALE"
              .ok (some
                { id := oid
                  order_number := order_number
                  customer_profile_id := customer_profile_id
                  customer_name := customer_name
                  delivery_name := delivery_name
                  delivery_address := delivery_address
                  creation_date := creation_date
                  delivery_date := delivery_date
                  remaining_sales_financial := remaining_sales_financial
                  customer_reference := customer_reference
                  sales_status := sales_status
                  order_type := order_type
                  document_status := document_status
                  sales_origin := sales_origin
                  transfer_status := transfer_status
                  transfer_date := transfer_date
                  completion_date := completion_date
                  discount_percent := discount_percent
                  gross_amount := gross_amount
                  total_amount := total_amount })

/-- Per-cycle output of a driver: emitted records, diagnostics, and the row
indices on which the row body (the Record Assembler) was invoked. -/
structure CycleOut (α : Type) where
  records : List α
  diags : List Diag
  visited : List Nat
deriving DecidableEq, Repr

/-- Record produced by one row, if any. -/
def okRec {α : Type} : Except PyErr (Option α) → Option α
  | .ok (some r) => some r
  | _ => none

/-- The `except` clause of the row loop: an exception turns into a warning
with the cycle and row coordinates, and the loop continues. -/
def errRowDiag {α : Type} (cstart row : Nat) : Except PyErr (Option α) → Option Diag
  | .error _ => some (Diag.rowError cstart row)
  | _ => none

/-- `page.extract_tables()` normalisation in the drivers: keep the first
table, or `[]` when there is none or it is empty. -/
def normalizeTable (p : Page) : Table :=
  match p.tables with
  | [] => []
  | t :: _ => if t = [] then [] else t

/-- One 7-page cycle of `parse_orders_pdf`: skipped when the anchor table is
empty or header-only, otherwise rows 1 .. len(tables[0])-1 are processed, the
`except` clause converting a row failure into a diagnostic. -/
def ordersProcessCycle (cstart : Nat) (tables : List Table) : CycleOut ParsedOrder :=
  let t0 := tables.getD 0 []
  if t0 = [] ∨ t0.length ≤ 1 then ⟨[], [], []⟩
  else
    ⟨(List.range' 1 (t0.length - 1)).filterMap (fun r => okRec (ordersRowStep tables r)),
     (List.range' 1 (t0.length - 1)).filterMap
       (fun r => errRowDiag cstart r (ordersRowStep tables r)),
     List.range' 1 (t0.length - 1)⟩

/-- The cycle loop `for cycle_start in range(0, total_pages, k)` with `break`
on a window shorter than `k`: exactly the ⌊total/k⌋ complete windows, each
tagged with its starting page index. -/
def cycleWindows (k : Nat) (pages : List Page) : List (Nat × List Page) :=
  (List.range (pages.length / k)).map (fun i => (i * k, (pages.drop (i * k)).take k))

/-- `parse_orders_pdf`: the streaming driver over 7-page cycles, returning the
emitted records and the diagnostics. -/
def parse_orders_pdf (pages : List Page) : List ParsedOrder × List Diag :=
  let ws := cycleWindows 7 pages
  ((ws.map (fun w => (ordersProcessCycle w.1 (w.2.map normalizeTable)).records)).flatten,
   (ws.map (fun w => (ordersProcessCycle w.1 (w.2.map normalizeTable)).diags)).flatten)

/-- C8: when a row of an orders cycle fails (its required creation date is
absent after parsing, the only raise in the row body), the driver records a
diagnostic carrying the cycle and row coordinates, that row contributes no
record, every other row's contribution is unchanged (the emitted records are
exactly the successful rows, independent of the failure), and the failure
never escapes the cycle loop. -/
theorem c8_row_failure_isolation (tables : List Table) (cstart r : Nat) (e : PyErr)
    (hr : r ∈ (ordersProcessCycle cstart tables).visited)
    (he : ordersRowStep tables r = .error e) :
    Diag.rowError cstart r ∈ (ordersProcessCycle cstart tables).diags ∧
    (ordersProcessCycle cstart tables).records =
      (ordersProcessCycle cstart tables).visited.filterMap
        (fun i => okRec (ordersRowStep tables i)) ∧
    (∀ i, i ∈ (ordersProcessCycle cstart tables).visited → i ≠ r →
      ∀ rec, ordersRowStep tables i = .ok (some rec) →
        rec ∈ (ordersProcessCycle cstart tables).records) := by
  by_cases hg : (tables.getD 0 [] = [] ∨ (tables.getD 0 []).length ≤ 1)
  · exfalso
    simp only [ordersProcessCycle, if_pos hg] at hr
    exact absurd hr (List.not_mem_nil r)
  · refine ⟨?_, ?_, ?_⟩
    · simp only [ordersProcessCycle, if_neg hg] at hr ⊢
      exact List.mem_filterMap.mpr ⟨r, hr, by rw [he]; rfl⟩
    · simp only [ordersProcessCycle, if_neg hg]
    · intro i hi _hir rec hrec
      simp only [ordersProcessCycle, if_neg hg] at hi ⊢
      exact List.mem_filterMap.mpr ⟨i, hi, by rw [hrec]; rfl⟩

/-- A 7-table orders cycle in which row 1 has a valid id but an unparsable
creation date, and row 2 is fully valid. -/
def ordersDemoTables : List Table :=
  [[[some "ID", some "ID DI VENDITA", some "PROFILO CLIENTE", some "NOME VENDITE"],
    [some "10", some "ORD/1", none, none],
    [some "11", some "ORD/2", none, none]],
   [],
   [[some "DATA DI CREAZIONE", some "DATA DI CONSEGNA", some "RIMANI VENDITE FINANZIARIE"],
    [some "bad", none, none],
    [some "20/01/2026 12:04:22", some "21/01/2026", none]],
   [], [], [], []]

/-- C8 witness: on the demo cycle, row 1's failure yields the diagnostic with
coordinates (0, 1) and the emitted records are exactly the successful rows. -/
theorem c8_row_failure_isolation_witness :
    Diag.rowError 0 1 ∈ (ordersProcessCycle 0 ordersDemoTables).diags ∧
    (ordersProcessCycle 0 ordersDemoTables).records =
      (ordersProcessCycle 0 ordersDemoTables).visited.filterMap
        (fun i => okRec (ordersRowStep ordersDemoTables i)) :=
  ⟨(c8_row_failure_isolation ordersDemoTables 0 1
      (.valueError "Missing required field: creation_date for order 10")
      (by decide) (by decide)).1,
   (c8_row_failure_isolation ordersDemoTables 0 1
      (.valueError "Missing required field: creation_date for order 10")
      (by decide) (by decide)).2.1⟩

/-- Every record the orders row body emits passed the primary-key guards:
its id is non-empty and is not the sentinel `"0"`. -/
theorem ordersRowStep_id (tables : List Table) (r : Nat) (rec : ParsedOrder)
    (h : ordersRowStep tables r = .ok (some rec)) : rec.id ≠ "" ∧ rec.id ≠ "0" := by
  unfold ordersRowStep at h
  dsimp only at h
  split at h
  · exact absurd h (by simp)
  next oid hid =>
    split at h
    · exact absurd h (by simp)
    · split at h
      · exact absurd h (by simp)
      · split at h
        · exact absurd h (by simp)
        · exact absurd h (by simp)
        · split at h
          · exact absurd h (by simp)
          · split at h
            · exact absurd h (by simp)
            · split at h
              · exact absurd h (by simp)
              · simp only [Except.ok.injEq, Option.some.injEq] at h
                subst h
                refine ⟨?_, ?_⟩ <;> assumption

/-! ### `parse-products-pdf.py`: positional 8-page cycles -/

/-- `table[row_idx] if row_idx < len(table) else []`. -/
def rowAt (t : Table) (i : Nat) : Row :=
  if i < t.length then t.getD i [] else []

/-- `row[i] if len(row) > i else None` (also the `[None] * n` default rows:
indexing either yields `None`). -/
def cellAt (r : Row) (i : Nat) : Cell :=
  r.getD i none

/-- `(row[i] or '').strip() if len(row) > i else ''` — the form used for the
two required string fields of `_parse_page_1`. -/
def cellStr (row : Row) (i : Nat) : String :=
  if i < row.length then pyStrip ((row.getD i none).getD "") else ""

/-- Empty string to `None`, the "clean empty strings" step of the page
parsers. -/
def noneIfEmpty (s : String) : Option String :=
  if s = "" then none else some s

/-- `(row[i] or '').strip() if len(row) > i else None`, then empty → `None` —
the form used for every optional field of the products page parsers. -/
def cellField (row : Row) (i : Nat) : Option String :=
  if i < row.length then noneIfEmpty (pyStrip ((row.getD i none).getD "")) else none

/-- `ParsedProduct` from `parse-products-pdf.py` (33 fields over 8 pages). -/
structure ParsedProduct where
  id_articolo : String
  nome_articolo : String
  descrizione : Option String
  gruppo_articolo : Option String
  contenuto_imballaggio : Option String
  nome_ricerca : Option String
  unita_prezzo : Option String
  id_gruppo_prodotti : Option String
  descrizione_gruppo_articolo : Option String
  qta_minima : Option String
  qta_multipli : Option String
  qta_massima : Option String
  figura : Option String
  id_blocco_articolo : Option String
  pacco_gamba : Option String
  grandezza : Option String
  id_configurazione : Option String
  creato_da : Option String
  data_creata : Option String
  dataareaid : Option String
  qta_predefinita : Option String
  visualizza_numero_prodotto : Option String
  sconto_assoluto_totale : Option String
  id_prodotto : Option String
  sconto_linea : Option String
  modificato_da : Option String
  datetime_modificato : Option String
  articolo_ordinabile : Option String
  purch_price : Option String
  pcs_id_configurazione_standard : Option String
  qta_standard : Option String
  fermato : Option String
  id_unita : Option String
deriving DecidableEq, Repr

/-- The eight `_parse_page_N` column maps combined into one record. -/
def buildProduct (r0 r1 r2 r3 r4 r5 r6 r7 : Row) : ParsedProduct where
  id_articolo := cellStr r0 0
  nome_articolo := cellStr r0 1
  descrizione := cellField r0 2
  gruppo_articolo := cellField r1 0
  contenuto_imballaggio := cellField r1 1
  nome_ricerca := cellField r1 2
  unita_prezzo := cellField r2 0
  id_gruppo_prodotti := cellField r2 1
  descrizione_gruppo_articolo := cellField r2 2
  qta_minima := cellField r2 3
  qta_multipli := cellField r3 0
  qta_massima := cellField r3 1
  figura := cellField r3 2
  id_blocco_articolo := cellField r3 3
  pacco_gamba := cellField r3 4
  grandezza := cellField r4 0
  id_configurazione := cellField r4 1
  creato_da := cellField r4 2
  data_creata := cellField r4 3
  dataareaid := cellField r4 4
  qta_predefinita := cellField r5 0
  visualizza_numero_prodotto := cellField r5 1
  sconto_assoluto_totale := cellField r5 2
  id_prodotto := cellField r5 3
  sconto_linea := cellField r6 0
  modificato_da := cellField r6 1
  datetime_modificato := cellField r6 2
  articolo_ordinabile := cellField r6 3
  purch_price := cellField r7 0
  pcs_id_configurazione_standard := cellField r7 1
  qta_standard := cellField r7 2
  fermato := cellField r7 3
  id_unita := cellField r7 4

/-- `all_tables[base+j][1:] if len(all_tables[base+j]) > 1 else []` — the
header-stripped data rows of slot `j` of one cycle. -/
def productsPageData (ct : List Table) (j : Nat) : Table :=
  let t := ct.getD j []
  if 1 < t.length then t.drop 1 else []

/-- `max_rows = max(len(page0_data), ..., len(page7_data))`. -/
def productsMaxRows (ct : List Table) : Nat :=
  max (productsPageData ct 0).length (max (productsPageData ct 1).length
    (max (productsPageData ct 2).length (max (productsPageData ct 3).length
      (max (productsPageData ct 4).length (max (productsPageData ct 5).length
        (max (productsPageData ct 6).length (productsPageData ct 7).length))))))

/-- One 8-page cycle of `_parse_cyclic_tables`: rows 0 .. max_rows-1 are
combined positionally, then the garbage filter keeps only records whose id is
truthy, non-sentinel after stripping, and not a `Count=` footer. -/
def productsCycleOut (ct : List Table) : CycleOut ParsedProduct :=
  let rows := List.range (productsMaxRows ct)
  ⟨rows.filterMap (fun row_idx =>
      let p := buildProduct
        (rowAt (productsPageData ct 0) row_idx) (rowAt (productsPageData ct 1) row_idx)
        (rowAt (productsPageData ct 2) row_idx) (rowAt (productsPageData ct 3) row_idx)
        (rowAt (productsPageData ct 4) row_idx) (rowAt (productsPageData ct 5) row_idx)
        (rowAt (productsPageData ct 6) row_idx) (rowAt (productsPageData ct 7) row_idx)
      if p.id_articolo ≠ "" ∧ pyStrip p.id_articolo ≠ "" ∧ pyStrip p.id_articolo ≠ "0" then
        if pyStartsWith p.id_articolo "Count=" = false then some p else none
      else none),
    [], rows⟩

/-- `ProductsPDFParser._parse_cyclic_tables`: all complete 8-page cycles. -/
def parse_cyclic_tables (all_tables : List Table) : List ParsedProduct :=
  ((List.range (all_tables.length / 8)).map (fun cycle =>
    (productsCycleOut ((all_tables.drop (cycle * 8)).take 8)).records)).flatten

/-! ### `parse-prices-pdf.py`: positional 3-page cycles -/

/-- `PricesPDFParser._get_cell`. -/
def pricesGetCell (row : Row) (i : Nat) : Option String :=
  if row = [] ∨ row.length ≤ i then none
  else
    match row.getD i none with
    | none => none
    | some v => if pyStrip v = "" then none else some (pyStrip v)

/-- `ParsedPrice` from `parse-prices-pdf.py` (14 fields over 3 pages). -/
structure ParsedPrice where
  id : Option String
  codice_conto : Option String
  account : Option String
  descrizione_account : Option String
  item_selection : Option String
  item_description : Option String
  da_data : Option String
  data : Option String
  quantita_p2 : Option String
  quantita_p3 : Option String
  unita_di_prezzo : Option String
  importo_unitario : Option String
  valuta : Option String
  prezzo_netto_brasseler : Option String
deriving DecidableEq, Repr

/-- One row of the prices cycle loop: `None` for the garbage-filter
`continue`, otherwise the assembled record. -/
def pricesRowStep (t1 t2 t3 : Table) (row_idx : Nat) : Option ParsedPrice :=
  let row1 := if row_idx < t1.length then t1.getD row_idx [] else []
  let row2 := if row_idx < t2.length then t2.getD row_idx [] else []
  let row3 := if row_idx < t3.length then t3.getD row_idx [] else []
  let id_val := pricesGetCell row1 0
  match id_val with
  | none => none
  | some s =>
    if s = "" ∨ pyStrip s = "0" ∨ pyStrip s = "" then none
    else some
      { id := id_val
        codice_conto := pricesGetCell row1 1
        account := pricesGetCell row1 2
        descrizione_account := pricesGetCell row1 3
        item_selection := pricesGetCell row1 4
        item_description := pricesGetCell row2 0
        da_data := pricesGetCell row2 1
        data := pricesGetCell row2 2
        quantita_p2 := pricesGetCell row2 3
        quantita_p3 := pricesGetCell row3 0
        unita_di_prezzo := pricesGetCell row3 1
        importo_unitario := pricesGetCell row3 2
        valuta := pricesGetCell row3 3
        prezzo_netto_brasseler := pricesGetCell row3 4 }

/-- One 3-page cycle of `PricesPDFParser.parse`: a missing table skips the
cycle with a warning; otherwise rows 1 .. min(len(table1), len(table2),
len(table3))-1 are processed. -/
def pricesCycleOut (cycle_idx : Nat) (ot1 ot2 ot3 : Option Table) :
    CycleOut ParsedPrice :=
  match ot1, ot2, ot3 with
  | some t1, some t2, some t3 =>
    if t1 = [] ∨ t2 = [] ∨ t3 = [] then ⟨[], [Diag.missingTables cycle_idx], []⟩
    else
      let rows := List.range' 1 (min (min t1.length t2.length) t3.length - 1)
      ⟨rows.filterMap (fun r => pricesRowStep t1 t2 t3 r), [], rows⟩
  | _, _, _ => ⟨[], [Diag.missingTables cycle_idx], []⟩

/-- Definition following the claim's words, for comparison with the code:
"the maximum data-row count taken across all slots' tables of that cycle" —
per table, its rows excluding the header. -/
def claimedMaxDataRows (tables : List Table) : Nat :=
  tables.foldr (fun t m => max (t.length - 1) m) 0

theorem productsPageData_length (ct : List Table) (j : Nat) :
    (productsPageData ct j).length = (ct.getD j []).length - 1 := by
  unfold productsPageData
  dsimp only
  generalize ct.getD j [] = t
  split
  · simp
  · simp only [List.length_nil]
    omega

theorem productsCycleOut_visited (ct : List Table) :
    (productsCycleOut ct).visited = List.range (productsMaxRows ct) := rfl

theorem ordersProcessCycle_visited (cstart : Nat) (tables : List Table) :
    (ordersProcessCycle cstart tables).visited =
      if tables.getD 0 [] = [] ∨ (tables.getD 0 []).length ≤ 1 then []
      else List.range' 1 ((tables.getD 0 []).length - 1) := by
  unfold ordersProcessCycle
  dsimp only
  split
  · rfl
  · rfl

theorem pricesCycleOut_visited (cy : Nat) (t1 t2 t3 : Table) :
    (pricesCycleOut cy (some t1) (some t2) (some t3)).visited =
      if t1 = [] ∨ t2 = [] ∨ t3 = [] then []
      else List.range' 1 (min (min t1.length t2.length) t3.length - 1) := by
  unfold pricesCycleOut
  dsimp only
  split
  · rfl
  · rfl

/-- C2 (amended): only the products driver iterates row indices 0 up to the
maximum data-row count across all eight slots, as the claim states; the
orders driver iterates the data rows of the anchor slot's table alone, and
the prices driver iterates only up to the MINIMUM of the three slots' table
lengths, so a record row present in a non-anchor slot only (orders) or absent
from some slot (prices) is not visited. -/
theorem c2_row_range_coverage :
    (∀ t0 t1 t2 t3 t4 t5 t6 t7 : Table,
      (productsCycleOut [t0, t1, t2, t3, t4, t5, t6, t7]).visited =
        List.range (claimedMaxDataRows [t0, t1, t2, t3, t4, t5, t6, t7])) ∧
    (∀ cstart tables, (ordersProcessCycle cstart tables).visited =
      if tables.getD 0 [] = [] ∨ (tables.getD 0 []).length ≤ 1 then []
      else List.range' 1 ((tables.getD 0 []).length - 1)) ∧
    (∀ cy (t1 t2 t3 : Table),
      (pricesCycleOut cy (some t1) (some t2) (some t3)).visited =
        if t1 = [] ∨ t2 = [] ∨ t3 = [] then []
        else List.range' 1 (min (min t1.length t2.length) t3.length - 1)) := by
  refine ⟨?_, ordersProcessCycle_visited, pricesCycleOut_visited⟩
  intro t0 t1 t2 t3 t4 t5 t6 t7
  rw [productsCycleOut_visited]
  congr 1
  unfold productsMaxRows claimedMaxDataRows
  simp only [productsPageData_length]
  simp only [List.foldr_cons, List.foldr_nil]
  have h0 : List.getD [t0, t1, t2, t3, t4, t5, t6, t7] 0 [] = t0 := rfl
  have h1 : List.getD [t0, t1, t2, t3, t4, t5, t6, t7] 1 [] = t1 := rfl
  have h2 : List.getD [t0, t1, t2, t3, t4, t5, t6, t7] 2 [] = t2 := rfl
  have h3 : List.getD [t0, t1, t2, t3, t4, t5, t6, t7] 3 [] = t3 := rfl
  have h4 : List.getD [t0, t1, t2, t3, t4, t5, t6, t7] 4 [] = t4 := rfl
  have h5 : List.getD [t0, t1, t2, t3, t4, t5, t6, t7] 5 [] = t5 := rfl
  have h6 : List.getD [t0, t1, t2, t3, t4, t5, t6, t7] 6 [] = t6 := rfl
  have h7 : List.getD [t0, t1, t2, t3, t4, t5, t6, t7] 7 [] = t7 := rfl
  simp only [h0, h1, h2, h3, h4, h5, h6, h7, Nat.max_zero]

/-- C2 counterexample: the claim as stated fails on the orders and prices
drivers.  An orders cycle whose anchor table has 1 data row while slot 1 has
2 invokes the assembler once, not twice; a prices cycle with tables of 2, 2
and 1 data rows also invokes it once, though the maximum across slots is 2. -/
theorem c2_row_range_coverage_counterexample :
    (ordersProcessCycle 0
        [[[some "ID"], [some "1"]],
         [[some "X"], [some "a"], [some "b"]], [], [], [], [], []]).visited.length = 1 ∧
    claimedMaxDataRows
        [[[some "ID"], [some "1"]],
         [[some "X"], [some "a"], [some "b"]], [], [], [], [], []] = 2 ∧
    (pricesCycleOut 0 (some [[some "ID"], [some "7"], [some "8"]])
        (some [[some "A"], [some "x"], [some "y"]])
        (some [[some "B"], [some "z"]])).visited.length = 1 ∧
    claimedMaxDataRows
        [[[some "ID"], [some "7"], [some "8"]],
         [[some "A"], [some "x"], [some "y"]],
         [[some "B"], [some "z"]]] = 2 := by
  refine ⟨by decide, by decide, by decide, by decide⟩

theorem productsCycleOut_records (ct : List Table) :
    (productsCycleOut ct).records =
      (List.range (productsMaxRows ct)).filterMap (fun row_idx =>
        let p := buildProduct
          (rowAt (productsPageData ct 0) row_idx) (rowAt (productsPageData ct 1) row_idx)
          (rowAt (productsPageData ct 2) row_idx) (rowAt (productsPageData ct 3) row_idx)
          (rowAt (productsPageData ct 4) row_idx) (rowAt (productsPageData ct 5) row_idx)
          (rowAt (productsPageData ct 6) row_idx) (rowAt (productsPageData ct 7) row_idx)
        if p.id_articolo ≠ "" ∧ pyStrip p.id_articolo ≠ "" ∧ pyStrip p.id_articolo ≠ "0" then
          if pyStartsWith p.id_articolo "Count=" = false then some p else none
        else none) := rfl

theorem ordersProcessCycle_records (cstart : Nat) (tables : List Table) :
    (ordersProcessCycle cstart tables).records =
      if tables.getD 0 [] = [] ∨ (tables.getD 0 []).length ≤ 1 then []
      else (List.range' 1 ((tables.getD 0 []).length - 1)).filterMap
        (fun r => okRec (ordersRowStep tables r)) := by
  unfold ordersProcessCycle
  dsimp only
  split
  · rfl
  · rfl

/-- C3 (amended): the products parser filters exactly as the claim says —
every emitted record's primary key is present, not the sentinel `"0"` after
stripping, and does not begin with the `Count=` footer marker.  The orders
parser checks only presence and the sentinel `"0"`: every emitted order id is
non-empty and not `"0"`, but footer-marked rows are NOT filtered on the
primary key. -/
theorem c3_validity_filter :
    (∀ all_tables : List Table, ∀ p ∈ parse_cyclic_tables all_tables,
      p.id_articolo ≠ "" ∧ pyStrip p.id_articolo ≠ "" ∧ pyStrip p.id_articolo ≠ "0" ∧
        pyStartsWith p.id_articolo "Count=" = false) ∧
    (∀ pages : List Page, ∀ rec ∈ (parse_orders_pdf pages).1,
      rec.id ≠ "" ∧ rec.id ≠ "0") := by
  constructor
  · intro all_tables p hp
    unfold parse_cyclic_tables at hp
    obtain ⟨l, hl, hpl⟩ := List.mem_flatten.mp hp
    obtain ⟨cycle, _hc, rfl⟩ := List.mem_map.mp hl
    rw [productsCycleOut_records] at hpl
    obtain ⟨r, _hr, hfr⟩ := List.mem_filterMap.mp hpl
    dsimp only at hfr
    split at hfr
    next h1 =>
      split at hfr
      next h2 =>
        simp only [Option.some.injEq] at hfr
        subst hfr
        exact ⟨h1.1, h1.2.1, h1.2.2, h2⟩
      next => exact absurd hfr (by simp)
    next => exact absurd hfr (by simp)
  · intro pages rec hrec
    unfold parse_orders_pdf at hrec
    dsimp only at hrec
    obtain ⟨l, hl, hrl⟩ := List.mem_flatten.mp hrec
    obtain ⟨w, _hw, rfl⟩ := List.mem_map.mp hl
    rw [ordersProcessCycle_records] at hrl
    split at hrl
    next => exact absurd hrl (List.not_mem_nil rec)
    next =>
      obtain ⟨r, _hr, hok⟩ := List.mem_filterMap.mp hrl
      cases hstep : ordersRowStep (w.2.map normalizeTable) r with
      | ok v =>
        cases v with
        | some rr =>
          rw [hstep] at hok
          simp only [okRec, Option.some.injEq] at hok
          subst hok
          exact ordersRowStep_id _ _ _ hstep
        | none =>
          rw [hstep] at hok
          exact absurd hok (by simp [okRec])
      | error e =>
        rw [hstep] at hok
        exact absurd hok (by simp [okRec])

/-- A single-cycle products export whose only data row has article id `A1`. -/
def productsDemoTables : List Table :=
  [[[some "H"], [some "A1"]], [], [], [], [], [], [], []]

/-- The record the products demo emits. -/
def productsDemoRec : ParsedProduct :=
  { id_articolo := "A1", nome_articolo := "", descrizione := none,
    gruppo_articolo := none, contenuto_imballaggio := none, nome_ricerca := none,
    unita_prezzo := none, id_gruppo_prodotti := none,
    descrizione_gruppo_articolo := none, qta_minima := none, qta_multipli := none,
    qta_massima := none, figura := none, id_blocco_articolo := none,
    pacco_gamba := none, grandezza := none, id_configurazione := none,
    creato_da := none, data_creata := none, dataareaid := none,
    qta_predefinita := none, visualizza_numero_prodotto := none,
    sconto_assoluto_totale := none, id_prodotto := none, sconto_linea := none,
    modificato_da := none, datetime_modificato := none,
    articolo_ordinabile := none, purch_price := none,
    pcs_id_configurazione_standard := none, qta_standard := none,
    fermato := none, id_unita := none }

/-- A 7-page orders document: row 1 fails its creation date, row 2 is valid. -/
def ordersDemoPages : List Page :=
  [⟨[[[some "ID", some "ID DI VENDITA", some "PROFILO CLIENTE", some "NOME VENDITE"],
      [some "10", some "ORD/1", none, none],
      [some "11", some "ORD/2", none, none]]]⟩,
   ⟨[]⟩,
   ⟨[[[some "DATA DI CREAZIONE", some "DATA DI CONSEGNA", some "RIMANI VENDITE FINANZIARIE"],
      [some "bad", none, none],
      [some "20/01/2026 12:04:22", some "21/01/2026", none]]]⟩,
   ⟨[]⟩, ⟨[]⟩, ⟨[]⟩, ⟨[]⟩]

/-- The order record the demo document emits (from its row 2). -/
def ordersDemoRec : ParsedOrder :=
  { id := "11", order_number := some "ORD/2", customer_profile_id := none,
    customer_name := none, delivery_name := none, delivery_address := none,
    creation_date := "2026-01-20T12:04:22", delivery_date := some "2026-01-21",
    remaining_sales_financial := none, customer_reference := none,
    sales_status := none, order_type := none, document_status := none,
    sales_origin := none, transfer_status := none, transfer_date := none,
    completion_date := none, discount_percent := none, gross_amount := none,
    total_amount := none }

/-- C3 witness: the amended theorem applied to the two demo documents. -/
theorem c3_validity_filter_witness :
    (productsDemoRec.id_articolo ≠ "" ∧ pyStrip productsDemoRec.id_articolo ≠ "" ∧
      pyStrip productsDemoRec.id_articolo ≠ "0" ∧
      pyStartsWith productsDemoRec.id_articolo "Count=" = false) ∧
    (ordersDemoRec.id ≠ "" ∧ ordersDemoRec.id ≠ "0") :=
  ⟨c3_validity_filter.1 productsDemoTables productsDemoRec (by decide),
   c3_validity_filter.2 ordersDemoPages ordersDemoRec (by decide)⟩

/-- A 7-page orders document whose only data row carries the footer marker
`Count=4` as its id, with a parsable creation date. -/
def ordersFooterPages : List Page :=
  [⟨[[[some "ID", some "ID DI VENDITA", some "PROFILO CLIENTE", some "NOME VENDITE"],
      [some "Count=4", none, none, none]]]⟩,
   ⟨[]⟩,
   ⟨[[[some "DATA DI CREAZIONE", some "DATA DI CONSEGNA", some "RIMANI VENDITE FINANZIARIE"],
      [some "20/01/2026 12:04:22", none, none]]]⟩,
   ⟨[]⟩, ⟨[]⟩, ⟨[]⟩, ⟨[]⟩]

/-- C3 counterexample: the orders parser emits a record whose primary key
begins with the footer marker `Count=` — the claim's footer clause fails on
`parse_orders_pdf`. -/
theorem c3_validity_filter_counterexample :
    ((parse_orders_pdf ordersFooterPages).1.map (fun r => r.id)) = ["Count=4"] ∧
    pyStartsWith "Count=4" "Count=" = true := by
  refine ⟨by decide, by decide⟩

/-! ### `parse-ddt-pdf.py`: positional 6-page cycles with detected size -/

/-- `ParsedDDT` from `parse-ddt-pdf.py` (13 fields over 6 pages; the cells
are used raw, without stripping). -/
structure ParsedDDT where
  id : Cell
  ddt_number : Cell
  delivery_date : Option String
  order_number : Cell
  customer_account : Cell
  sales_name : Cell
  delivery_name : Cell
  tracking_number : Option String
  tracking_url : Option String
  tracking_courier : Option String
  delivery_terms : Cell
  delivery_method : Cell
  delivery_city : Cell
deriving DecidableEq, Repr

/-- One row of the DDT cycle loop body: `.ok none` for the `continue` skips
(missing or sentinel keys), `.ok (some record)` on success. -/
def ddtRowStep (tables : List Table) (row_idx : Nat) :
    Except PyErr (Option ParsedDDT) :=
  let row1 := rowAt (tables.getD 0 []) row_idx
  let ddt_id := cellAt row1 1
  let ddt_number := cellAt row1 2
  match (if 3 < row1.length then parse_italian_date (cellAt row1 3) else .ok none) with
  | .error e => .error e
  | .ok delivery_date =>
    let order_number := cellAt row1 4
    if truthy ddt_number = false ∨ truthy order_number = false then .ok none
    else if ddt_id = some "0" ∨ ddt_number = some "0" then .ok none
    else
      let row2 := rowAt (tables.getD 1 []) row_idx
      let customer_account := cellAt row2 0
      let sales_name := cellAt row2 1
      let row3 := rowAt (tables.getD 2 []) row_idx
      let delivery_name := cellAt row3 0
      let row5 := rowAt (tables.getD 4 []) row_idx
      let tracking_raw : Cell :=
        if 0 < row5.length ∧ truthy (cellAt row5 0) = true then cellAt row5 0 else none
      let tr :=
        if truthy tracking_raw = true then extract_tracking_info tracking_raw
        else (none, none, none)
      let delivery_terms := cellAt row5 1
      let row6 := rowAt (tables.getD 5 []) row_idx
      .ok (some
        { id := ddt_id
          ddt_number := ddt_number
          delivery_date := delivery_date
          order_number := order_number
          customer_account := customer_account
          sales_name := sales_name
          delivery_name := delivery_name
          tracking_number := tr.1
          tracking_url := tr.2.2
          tracking_courier := tr.2.1
          delivery_terms := delivery_terms
          delivery_method := cellAt row6 0
          delivery_city := cellAt row6 2 })

/-- One cycle of `parse_ddt_pdf`, mirrored on the orders cycle loop. -/
def ddtProcessCycle (cstart : Nat) (tables : List Table) : CycleOut ParsedDDT :=
  let t0 := tables.getD 0 []
  if t0 = [] ∨ t0.length ≤ 1 then ⟨[], [], []⟩
  else
    ⟨(List.range' 1 (t0.length - 1)).filterMap (fun r => okRec (ddtRowStep tables r)),
     (List.range' 1 (t0.length - 1)).filterMap
       (fun r => errRowDiag cstart r (ddtRowStep tables r)),
     List.range' 1 (t0.length - 1)⟩

/-- `parse_ddt_pdf`: detect the cycle size (emitting the cycle-size warning),
then stream the complete windows of that size. -/
def parse_ddt_pdf (pages : List Page) : List ParsedDDT × List Diag :=
  let d := ddtDetect pages
  let ws := cycleWindows d.1 pages
  ((ws.map (fun w => (ddtProcessCycle w.1 (w.2.map normalizeTable)).records)).flatten,
   Diag.cycleWarning "ddt" d.1 6 d.2 ::
     (ws.map (fun w => (ddtProcessCycle w.1 (w.2.map normalizeTable)).diags)).flatten)

/-- Complete windows ignore a trailing fragment shorter than the window. -/
theorem cycleWindows_append (k : Nat) (pre tail : List Page)
    (hm : pre.length % k = 0) (ht : tail.length < k) :
    cycleWindows k (pre ++ tail) = cycleWindows k pre := by
  have hk : 0 < k := by omega
  obtain ⟨q, hq⟩ := Nat.dvd_of_mod_eq_zero hm
  have hdiv : pre.length / k = q := by
    rw [hq, Nat.mul_div_cancel_left q hk]
  unfold cycleWindows
  have hlen : (pre ++ tail).length / k = pre.length / k := by
    rw [List.length_append, hq, Nat.mul_add_div hk, Nat.div_eq_of_lt ht,
      Nat.mul_div_cancel_left q hk, Nat.add_zero]
  rw [hlen]
  refine List.map_congr_left fun i hi => ?_
  have hik : i < q := by
    have := List.mem_range.mp hi
    omega
  have h2 : i * k + k ≤ pre.length := by
    rw [hq]
    calc i * k + k = (i + 1) * k := by ring
    _ ≤ q * k := Nat.mul_le_mul_right k hik
    _ = k * q := Nat.mul_comm q k
  have hdrop : (pre ++ tail).drop (i * k) = pre.drop (i * k) ++ tail :=
    List.drop_append_of_le_length (by omega)
  rw [hdrop, List.take_append_of_le_length (by simp [List.length_drop]; omega)]

/-- C6 (amended): a trailing partial cycle (page count not a multiple of the
cycle size) contributes zero records, does not raise, and does not disturb the
records of the complete cycles — the driver's whole output, diagnostics
included, equals its output on the document truncated to complete cycles, so
in particular NO skip diagnostic is emitted for the partial tail.  For the
DDT driver this holds whenever the tail does not change the detected cycle
size. -/
theorem c6_trailing_partial_cycle :
    (∀ pre tail : List Page, pre.length % 7 = 0 → tail.length < 7 →
      parse_orders_pdf (pre ++ tail) = parse_orders_pdf pre) ∧
    (∀ pre tail : List Page, ddtDetect (pre ++ tail) = ddtDetect pre →
      pre.length % (ddtDetect pre).1 = 0 → tail.length < (ddtDetect pre).1 →
      parse_ddt_pdf (pre ++ tail) = parse_ddt_pdf pre) := by
  constructor
  · intro pre tail hm ht
    unfold parse_orders_pdf
    rw [cycleWindows_append 7 pre tail hm ht]
  · intro pre tail hdet hm ht
    unfold parse_ddt_pdf
    dsimp only
    rw [hdet, cycleWindows_append _ pre tail hm ht]

/-- C6 witness: the amended theorem applied to an 8-page orders document
(7-page cycle plus one page) and a 7-page DDT document (6 empty pages plus
one, detection falling back to 6 on both). -/
theorem c6_trailing_partial_cycle_witness :
    parse_orders_pdf (ordersDemoPages ++ [⟨[]⟩]) = parse_orders_pdf ordersDemoPages ∧
    parse_ddt_pdf ((⟨[]⟩ :: ⟨[]⟩ :: ⟨[]⟩ :: ⟨[]⟩ :: ⟨[]⟩ :: ⟨[]⟩ :: []) ++ [⟨[]⟩]) =
      parse_ddt_pdf (⟨[]⟩ :: ⟨[]⟩ :: ⟨[]⟩ :: ⟨[]⟩ :: ⟨[]⟩ :: ⟨[]⟩ :: []) :=
  ⟨c6_trailing_partial_cycle.1 ordersDemoPages [⟨[]⟩] (by decide) (by decide),
   c6_trailing_partial_cycle.2 (⟨[]⟩ :: ⟨[]⟩ :: ⟨[]⟩ :: ⟨[]⟩ :: ⟨[]⟩ :: ⟨[]⟩ :: [])
     [⟨[]⟩] (by decide) (by decide) (by decide)⟩

/-- A valid single-cycle orders document plus one extra page (8 pages, not a
multiple of 7). -/
def ordersC6Pages : List Page :=
  [⟨[[[some "ID", some "ID DI VENDITA", some "PROFILO CLIENTE", some "NOME VENDITE"],
      [some "12", some "ORD/3", none, none]]]⟩,
   ⟨[]⟩,
   ⟨[[[some "DATA DI CREAZIONE", some "DATA DI CONSEGNA", some "RIMANI VENDITE FINANZIARIE"],
      [some "20/01/2026 12:04:22", none, none]]]⟩,
   ⟨[]⟩, ⟨[]⟩, ⟨[]⟩, ⟨[]⟩, ⟨[]⟩]

/-- C6 counterexample: on an 8-page orders document the trailing partial
cycle produces NO diagnostic at all — the diagnostic stream is empty, not the
claimed "exactly one skip diagnostic" — while the complete cycle's record is
still emitted and nothing raises. -/
theorem c6_trailing_partial_cycle_counterexample :
    (parse_orders_pdf ordersC6Pages).2 = [] ∧
    (parse_orders_pdf ordersC6Pages).1.length = 1 ∧
    ordersC6Pages.length % 7 ≠ 0 := by
  refine ⟨by decide, by decide, by decide⟩

/-! ### `parse-saleslines-pdf.py`: page-pair article extraction -/

/-- `is_totals_row` from `parse-saleslines-pdf.py`. -/
def is_totals_row (row : Row) : Bool :=
  let raw := pyLower (String.intercalate " " (row.map (fun c => c.getD "")))
  substrOf "count=" raw || substrOf "sum=" raw

/-- IEEE `<` on Python floats: NaN is incomparable, `-inf` below every
number, `+inf` above. -/
def pfLt : PyFloat → PyFloat → Bool
  | .nan, _ => false
  | _, .nan => false
  | .inf s, .inf t => s && !t
  | .inf s, .num _ => s
  | .num _, .inf t => !t
  | .num a, .num b => a < b

/-- IEEE `<=` on Python floats (false whenever NaN is involved). -/
def pfLe : PyFloat → PyFloat → Bool
  | .nan, _ => false
  | _, .nan => false
  | .inf s, .inf t => s || !t
  | .inf s, .num _ => s
  | .num _, .inf t => !t
  | .num a, .num b => a ≤ b

/-- Python truthiness of a float: only `0.0` is falsy (`nan` and `inf` are
truthy). -/
def pfTruthy : PyFloat → Bool
  | .num q => q ≠ 0
  | _ => true

/-- Float multiplication with IEEE NaN/infinity propagation
(`inf * 0 = nan`). -/
def pfMul : PyFloat → PyFloat → PyFloat
  | .nan, _ => .nan
  | _, .nan => .nan
  | .inf s, .inf t => .inf (s != t)
  | .inf s, .num q => if q = 0 then .nan else .inf (s != decide (q < 0))
  | .num q, .inf s => if q = 0 then .nan else .inf (s != decide (q < 0))
  | .num a, .num b => .num (a * b)

/-- Float subtraction with IEEE NaN/infinity propagation
(`inf - inf = nan`). -/
def pfSub : PyFloat → PyFloat → PyFloat
  | .nan, _ => .nan
  | _, .nan => .nan
  | .inf s, .inf t => if s = t then .nan else .inf s
  | .inf s, .num _ => .inf s
  | .num _, .inf t => .inf (!t)
  | .num a, .num b => .num (a - b)

/-- Float division by a positive rational constant (the scripts divide only by
the literal `100`): NaN and infinities pass through, finite values divide. -/
def pfDivPos (x : PyFloat) (c : Rat) : PyFloat :=
  match x with
  | .nan => .nan
  | .inf s => .inf s
  | .num a => .num (a / c)

/-- Python two-argument `min(a, b)`: returns `b` exactly when `b < a`. -/
def pyMinF (a b : PyFloat) : PyFloat := if pfLt b a = true then b else a

/-- Python two-argument `max(a, b)`: returns `b` exactly when `a < b`. -/
def pyMaxF (a b : PyFloat) : PyFloat := if pfLt a b = true then b else a

/-- `ParsedArticle` from `parse-saleslines-pdf.py`. -/
structure ParsedArticle where
  line_number : String
  article_code : String
  quantity : PyFloat
  unit_price : PyFloat
  discount_percent : PyFloat
  line_amount : PyFloat
  description : Option String
deriving DecidableEq, Repr

/-- Python `v or d` for an optional string (`None` and `""` are falsy). -/
def pyOrS (v : Option String) (d : String) : String :=
  match v with
  | some s => if s = "" then d else s
  | none => d

/-- Python `v or d` for an optional float (`None` and `0.0` are falsy; NaN and
infinities are truthy). -/
def pyOrQ (v : Option PyFloat) (d : PyFloat) : PyFloat :=
  match v with
  | some x => if pfTruthy x = true then x else d
  | none => d

/-- `s[n:]` — drop the length of `pre` off the front. -/
def dropPrefixStr (s pre : String) : String :=
  String.mk (s.toList.drop pre.toList.length)

/-- The discount-validation block: a discount comparing outside [0, 100] is
warned about and clamped via `max(0.0, min(100.0, d))`; `None`, in-range
values — and NaN, which no comparison flags — pass through. -/
def clampDiscount (d0 : Option PyFloat) (pair_idx r : Nat) : Option PyFloat × List Diag :=
  match d0 with
  | some d =>
    if (pfLt d (.num 0) || pfLt (.num 100) d) = true then
      (some (pyMaxF (.num 0) (pyMinF (.num 100) d)), [Diag.invalidDiscount pair_idx r])
    else (some d, [])
  | none => (none, [])

/-- The description-cleaning block of `parse_page_pair`: when the raw
description starts with the article code, drop the code and strip (the
further newline branch is kept although a stripped string cannot start with
one). -/
def salesDescription (description_raw article_code : Option String) : Option String :=
  if truthy description_raw = true ∧ truthy article_code = true ∧
      pyStartsWith (description_raw.getD "") (article_code.getD "") = true then
    let d1 := pyStrip (dropPrefixStr (description_raw.getD "") (article_code.getD ""))
    some (if pyStartsWith d1 "\n" = true then pyStrip (String.mk (d1.toList.drop 1)) else d1)
  else description_raw

/-- One row of `parse_page_pair`: `.ok (none, warnings)` for the `continue`
paths, `.ok (some article, warnings)` on success. -/
def salesRowStep (table1 table2 : Table) (pair_idx r : Nat) :
    Except PyErr (Option ParsedArticle × List Diag) :=
  let row1 := rowAt table1 r
  let line_number : Option String :=
    if 0 < row1.length then some (pyStrip ((cellAt row1 0).getD "")) else none
  let article_code : Option String :=
    if 1 < row1.length then some (pyStrip ((cellAt row1 1).getD "")) else none
  match (if 2 < row1.length then parse_italian_decimal (cellAt row1 2) else .ok none) with
  | .error e => .error e
  | .ok quantity =>
  match (if 3 < row1.length then parse_italian_decimal (cellAt row1 3) else .ok none) with
  | .error e => .error e
  | .ok unit_price =>
  match (if 5 < row1.length then parse_italian_decimal (cellAt row1 5) else .ok none) with
  | .error e => .error e
  | .ok discount0 =>
  let row2 := rowAt table2 r
  match (if 0 < row2.length then parse_italian_decimal (cellAt row2 0) else .ok none) with
  | .error e => .error e
  | .ok line_amount =>
  let description_raw : Option String :=
    if 2 < row2.length then some (pyStrip ((cellAt row2 2).getD "")) else none
  let description := salesDescription description_raw article_code
  match article_code, quantity, unit_price with
  | some ac, some q, some up =>
    if ac = "" then .ok (none, [])
    else if pfLe q (.num 0) = true then .ok (none, [Diag.invalidQuantity pair_idx r])
    else if pfLt up (.num 0) = true then .ok (none, [Diag.invalidUnitPrice pair_idx r])
    else
      let dp := clampDiscount discount0 pair_idx r
      .ok (some
        { line_number := pyOrS line_number ""
          article_code := ac
          quantity := q
          unit_price := up
          discount_percent := pyOrQ dp.1 (.num 0)
          line_amount := pyOrQ line_amount
            (pfMul (pfMul q up) (pfSub (.num 1) (pfDivPos (pyOrQ dp.1 (.num 0)) 100)))
          description := description }, dp.2)
  | _, _, _ => .ok (none, [])

/-- `parse_page_pair` from `parse-saleslines-pdf.py`: extract the two tables,
trim a trailing totals row from each, and process rows 1 .. max(end1, end2)-1
with per-row failure isolation. -/
def parse_page_pair (page_left page_right : Page) (pair_idx : Nat) :
    List ParsedArticle × List Diag :=
  let tables_left := page_left.tables
  let tables_right := page_right.tables
  if tables_left = [] ∨ tables_right = [] then ([], [Diag.missingPairTables pair_idx])
  else
    let table1 := tables_left.headD []
    let table2 := tables_right.headD []
    if table1.length ≤ 1 ∨ table2.length ≤ 1 then ([], [])
    else
      let end1 := if is_totals_row (table1.getLastD []) = true then table1.length - 1
        else table1.length
      let end2 := if is_totals_row (table2.getLastD []) = true then table2.length - 1
        else table2.length
      let rows := List.range' 1 (max end1 end2 - 1)
      (rows.filterMap (fun r =>
        match salesRowStep table1 table2 pair_idx r with
        | .ok (a, _) => a
        | .error _ => none),
       (rows.map (fun r =>
         match salesRowStep table1 table2 pair_idx r with
         | .ok (_, ds) => ds
         | .error _ => [Diag.rowError pair_idx r])).flatten)

/-- A boolean that is not `true` is `false`. -/
theorem bool_ne_true_eq_false {b : Bool} (h : ¬ b = true) : b = false := by
  cases b
  · rfl
  · exact absurd rfl h

/-- A float that fails the `<= 0` guard is, when an actual number, positive. -/
theorem pfLe_zero_false_pos (x : PyFloat) (h : ¬ pfLe x (.num 0) = true) :
    ∀ q, x = .num q → 0 < q := by
  intro q hq
  subst hq
  by_contra hc
  refine h ?_
  simp only [pfLe, decide_eq_true_eq]
  exact not_lt.mp hc

/-- A float that fails the `< 0` guard is, when an actual number,
non-negative. -/
theorem pfLt_zero_false_nonneg (x : PyFloat) (h : ¬ pfLt x (.num 0) = true) :
    ∀ u, x = .num u → 0 ≤ u := by
  intro u hu
  subst hu
  by_contra hc
  refine h ?_
  simp only [pfLt, decide_eq_true_eq]
  exact not_le.mp hc

/-- Whenever the clamped-or-passed-through, `or 0.0`-defaulted discount is an
actual number it lies in [0, 100]; a NaN discount passes through unbounded
(and is then not a `num`). -/
theorem pyOrQ_clamp_range (d0 : Option PyFloat) (i r : Nat) (d : Rat)
    (h : pyOrQ (clampDiscount d0 i r).1 (.num 0) = .num d) :
    0 ≤ d ∧ d ≤ 100 := by
  cases d0 with
  | none =>
    simp only [clampDiscount, pyOrQ, PyFloat.num.injEq] at h
    constructor <;> rw [← h] <;> norm_num
  | some x =>
    cases x with
    | nan => simp [clampDiscount, pfLt, pyOrQ, pfTruthy] at h
    | inf s =>
      cases s with
      | false =>
        have hg : (pfLt (.inf false) (.num 0) || pfLt (.num 100) (.inf false)) = true := by
          simp [pfLt]
        simp only [clampDiscount, if_pos hg] at h
        rw [show pyMinF (.num 100) (.inf false) = .num 100 by simp [pyMinF, pfLt]] at h
        rw [show pyMaxF (.num 0) (.num 100) = .num 100 by
          unfold pyMaxF
          rw [if_pos]
          simp only [pfLt, decide_eq_true_eq]
          norm_num] at h
        rw [show pyOrQ (some (PyFloat.num 100)) (.num 0) = .num 100 by
          norm_num [pyOrQ, pfTruthy]] at h
        simp only [PyFloat.num.injEq] at h
        constructor <;> rw [← h] <;> norm_num
      | true =>
        have hg : (pfLt (.inf true) (.num 0) || pfLt (.num 100) (.inf true)) = true := by
          simp [pfLt]
        simp only [clampDiscount, if_pos hg] at h
        rw [show pyMinF (.num 100) (.inf true) = .inf true by simp [pyMinF, pfLt]] at h
        rw [show pyMaxF (.num 0) (.inf true) = .num 0 by simp [pyMaxF, pfLt]] at h
        rw [show pyOrQ (some (PyFloat.num 0)) (.num 0) = .num 0 by
          norm_num [pyOrQ, pfTruthy]] at h
        simp only [PyFloat.num.injEq] at h
        constructor <;> rw [← h] <;> norm_num
    | num q =>
      by_cases hq : q < 0 ∨ 100 < q
      · have hg : (pfLt (.num q) (.num 0) || pfLt (.num 100) (.num q)) = true := by
          rcases hq with h' | h' <;> simp [pfLt, h']
        simp only [clampDiscount, if_pos hg] at h
        rcases hq with hq | hq
        · rw [show pyMinF (.num 100) (.num q) = .num q by
            unfold pyMinF
            rw [if_pos]
            simp only [pfLt, decide_eq_true_eq]
            linarith] at h
          rw [show pyMaxF (.num 0) (.num q) = .num 0 by
            unfold pyMaxF
            rw [if_neg]
            simp only [pfLt, decide_eq_true_eq]
            intro hc
            linarith] at h
          rw [show pyOrQ (some (PyFloat.num 0)) (.num 0) = .num 0 by
            norm_num [pyOrQ, pfTruthy]] at h
          simp only [PyFloat.num.injEq] at h
          constructor <;> rw [← h] <;> norm_num
        · rw [show pyMinF (.num 100) (.num q) = .num 100 by
            unfold pyMinF
            rw [if_neg]
            simp only [pfLt, decide_eq_true_eq]
            intro hc
            linarith] at h
          rw [show pyMaxF (.num 0) (.num 100) = .num 100 by
            unfold pyMaxF
            rw [if_pos]
            simp only [pfLt, decide_eq_true_eq]
            norm_num] at h
          rw [show pyOrQ (some (PyFloat.num 100)) (.num 0) = .num 100 by
            norm_num [pyOrQ, pfTruthy]] at h
          simp only [PyFloat.num.injEq] at h
          constructor <;> rw [← h] <;> norm_num
      · push_neg at hq
        have hg : (pfLt (.num q) (.num 0) || pfLt (.num 100) (.num q)) = false := by
          simp [pfLt, not_lt.mpr hq.1, not_lt.mpr hq.2]
        have hn : ¬ ((pfLt (.num q) (.num 0) || pfLt (.num 100) (.num q)) = true) := by
          simp [hg]
        simp only [clampDiscount, if_neg hn] at h
        simp only [pyOrQ, pfTruthy] at h
        split at h
        · simp only [PyFloat.num.injEq] at h
          constructor <;> rw [← h]
          · exact hq.1
          · exact hq.2
        · simp only [PyFloat.num.injEq] at h
          constructor <;> rw [← h] <;> norm_num

/-- Every article the sales row body emits has a non-empty article code, its
quantity and unit price fail the rejection comparisons, and every numeric
(non-NaN) field value satisfies the range bounds. -/
theorem salesRowStep_invariant (table1 table2 : Table) (pair_idx r : Nat)
    (a : ParsedArticle) (ds : List Diag)
    (h : salesRowStep table1 table2 pair_idx r = .ok (some a, ds)) :
    a.article_code ≠ "" ∧ pfLe a.quantity (.num 0) = false ∧
      pfLt a.unit_price (.num 0) = false ∧
      (∀ q, a.quantity = .num q → 0 < q) ∧
      (∀ u, a.unit_price = .num u → 0 ≤ u) ∧
      (∀ d, a.discount_percent = .num d → 0 ≤ d ∧ d ≤ 100) := by
  unfold salesRowStep at h
  dsimp only at h
  repeat' split at h
  all_goals simp at h
  all_goals obtain ⟨ha, _hds⟩ := h
  all_goals subst ha
  all_goals
    exact ⟨by assumption, bool_ne_true_eq_false (by assumption),
      bool_ne_true_eq_false (by assumption),
      pfLe_zero_false_pos _ (by assumption),
      pfLt_zero_false_nonneg _ (by assumption),
      fun d hd => pyOrQ_clamp_range _ _ _ d hd⟩

/-- Demo left-page sales table: header plus one data row whose discount cell
holds the out-of-range value `"150"`. -/
def salesDemoT1 : Table :=
  [[some "N", some "Codice articolo", some "Q", some "Prezzo", some "U", some "Sconto"],
   [some "1", some "A1", some "2", some "3", some "u", some "150"]]

/-- Demo right-page sales table: line amount and description. -/
def salesDemoT2 : Table :=
  [[some "Importo", some "X", some "Descrizione"],
   [some "6", none, some "desc"]]

def salesDemoLeft : Page := ⟨[salesDemoT1]⟩

def salesDemoRight : Page := ⟨[salesDemoT2]⟩

/-- The article the demo pair yields: the discount 150 is clamped to 100. -/
def salesDemoArticle : ParsedArticle :=
  { line_number := "1", article_code := "A1", quantity := .num 2, unit_price := .num 3,
    discount_percent := .num 100, line_amount := .num 6, description := some "desc" }

/-- Evaluation of the sales row body on the demo pair's data row. -/
theorem salesDemo_step : salesRowStep salesDemoT1 salesDemoT2 0 1 =
    .ok (some salesDemoArticle, [Diag.invalidDiscount 0 1]) := by
  have e2 : parse_italian_decimal (some "2") = .ok (some (.num (2 : Rat))) := by
    rw [parse_decimal_dot_only "2" (by decide) (by decide) (by decide)]
    have hd : digitsNat ("2".toList.filter Char.isDigit) = 2 := by decide
    rw [hd]
    norm_num
  have e3 : parse_italian_decimal (some "3") = .ok (some (.num (3 : Rat))) := by
    rw [parse_decimal_dot_only "3" (by decide) (by decide) (by decide)]
    have hd : digitsNat ("3".toList.filter Char.isDigit) = 3 := by decide
    rw [hd]
    norm_num
  have e150 : parse_italian_decimal (some "150") = .ok (some (.num (150 : Rat))) := by
    rw [parse_decimal_dot_only "150" (by decide) (by decide) (by decide)]
    have hd : digitsNat ("150".toList.filter Char.isDigit) = 150 := by decide
    rw [hd]
    norm_num
  have e6 : parse_italian_decimal (some "6") = .ok (some (.num (6 : Rat))) := by
    rw [parse_decimal_dot_only "6" (by decide) (by decide) (by decide)]
    have hd : digitsNat ("6".toList.filter Char.isDigit) = 6 := by decide
    rw [hd]
    norm_num
  have hlen1 : (rowAt salesDemoT1 1).length = 6 := by decide
  have hlen2 : (rowAt salesDemoT2 1).length = 3 := by decide
  have hc0 : pyStrip ((cellAt (rowAt salesDemoT1 1) 0).getD "") = "1" := by decide
  have hc1 : pyStrip ((cellAt (rowAt salesDemoT1 1) 1).getD "") = "A1" := by decide
  have hc2 : cellAt (rowAt salesDemoT1 1) 2 = some "2" := by decide
  have hc3 : cellAt (rowAt salesDemoT1 1) 3 = some "3" := by decide
  have hc5 : cellAt (rowAt salesDemoT1 1) 5 = some "150" := by decide
  have hd0 : cellAt (rowAt salesDemoT2 1) 0 = some "6" := by decide
  have hd2 : pyStrip ((cellAt (rowAt salesDemoT2 1) 2).getD "") = "desc" := by decide
  have hds : salesDescription (some "desc") (some "A1") = some "desc" := by decide
  have hsA : ¬ ("A1" = "") := by decide
  have hs1 : ¬ ("1" = "") := by decide
  unfold salesRowStep
  norm_num [hlen1, hlen2, hc0, hc1, hc2, hc3, hc5, hd0, hd2, hds, e2, e3, e150, e6,
    pyOrS, pyOrQ, pfTruthy, pfLe, pfLt, pyMinF, pyMaxF, clampDiscount,
    salesDemoArticle, hsA, hs1]

/-- Evaluation of `parse_page_pair` on the demo pair: one article, one
discount warning. -/
theorem salesDemo_eval : parse_page_pair salesDemoLeft salesDemoRight 0 =
    ([salesDemoArticle], [Diag.invalidDiscount 0 1]) := by
  have h1 : salesDemoLeft.tables.headD [] = salesDemoT1 := rfl
  have h2 : salesDemoRight.tables.headD [] = salesDemoT2 := rfl
  have ht1 : is_totals_row (salesDemoT1.getLastD []) = false := by decide
  have ht2 : is_totals_row (salesDemoT2.getLastD []) = false := by decide
  have hL1 : salesDemoT1.length = 2 := by decide
  have hL2 : salesDemoT2.length = 2 := by decide
  have hne : ¬ (salesDemoLeft.tables = [] ∨ salesDemoRight.tables = []) := by decide
  unfold parse_page_pair
  rw [if_neg hne]
  dsimp only
  simp only [h1, h2, ht1, ht2, hL1, hL2]
  norm_num [List.range']
  simp [salesDemo_step]

/-- C10 counterexample pages: the quantity and discount cells hold the text
`nan`, which Python float() accepts. -/
def salesNanT1 : Table :=
  [[some "N", some "Codice articolo", some "Q", some "Prezzo", some "U", some "Sconto"],
   [some "1", some "A1", some "nan", some "3", some "u", some "nan"]]

def salesNanT2 : Table :=
  [[some "Importo", some "X", some "Descrizione"],
   [some "6", none, some "desc"]]

def salesNanLeft : Page := ⟨[salesNanT1]⟩

def salesNanRight : Page := ⟨[salesNanT2]⟩

/-- The article the NaN pair yields: quantity and discount are NaN, and no
warning is raised. -/
def salesNanArticle : ParsedArticle :=
  { line_number := "1", article_code := "A1", quantity := .nan, unit_price := .num 3,
    discount_percent := .nan, line_amount := .num 6, description := some "desc" }

/-- Evaluation of the sales row body on the NaN pair's data row: the NaN
quantity and discount pass every comparison guard. -/
theorem salesNan_step : salesRowStep salesNanT1 salesNanT2 0 1 =
    .ok (some salesNanArticle, []) := by
  have enan : parse_italian_decimal (some "nan") = .ok (some PyFloat.nan) := by decide
  have e3 : parse_italian_decimal (some "3") = .ok (some (.num (3 : Rat))) := by
    rw [parse_decimal_dot_only "3" (by decide) (by decide) (by decide)]
    have hd : digitsNat ("3".toList.filter Char.isDigit) = 3 := by decide
    rw [hd]
    norm_num
  have e6 : parse_italian_decimal (some "6") = .ok (some (.num (6 : Rat))) := by
    rw [parse_decimal_dot_only "6" (by decide) (by decide) (by decide)]
    have hd : digitsNat ("6".toList.filter Char.isDigit) = 6 := by decide
    rw [hd]
    norm_num
  have hlen1 : (rowAt salesNanT1 1).length = 6 := by decide
  have hlen2 : (rowAt salesNanT2 1).length = 3 := by decide
  have hc0 : pyStrip ((cellAt (rowAt salesNanT1 1) 0).getD "") = "1" := by decide
  have hc1 : pyStrip ((cellAt (rowAt salesNanT1 1) 1).getD "") = "A1" := by decide
  have hc2 : cellAt (rowAt salesNanT1 1) 2 = some "nan" := by decide
  have hc3 : cellAt (rowAt salesNanT1 1) 3 = some "3" := by decide
  have hc5 : cellAt (rowAt salesNanT1 1) 5 = some "nan" := by decide
  have hd0 : cellAt (rowAt salesNanT2 1) 0 = some "6" := by decide
  have hd2 : pyStrip ((cellAt (rowAt salesNanT2 1) 2).getD "") = "desc" := by decide
  have hds : salesDescription (some "desc") (some "A1") = some "desc" := by decide
  have hsA : ¬ ("A1" = "") := by decide
  have hs1 : ¬ ("1" = "") := by decide
  unfold salesRowStep
  norm_num [hlen1, hlen2, hc0, hc1, hc2, hc3, hc5, hd0, hd2, hds, enan, e3, e6,
    pyOrS, pyOrQ, pfTruthy, pfLe, pfLt, clampDiscount, salesNanArticle, hsA, hs1]

/-- Evaluation of `parse_page_pair` on the NaN pair: the NaN article is
emitted, with no diagnostic at all. -/
theorem salesNan_eval : parse_page_pair salesNanLeft salesNanRight 0 =
    ([salesNanArticle], []) := by
  have h1 : salesNanLeft.tables.headD [] = salesNanT1 := rfl
  have h2 : salesNanRight.tables.headD [] = salesNanT2 := rfl
  have ht1 : is_totals_row (salesNanT1.getLastD []) = false := by decide
  have ht2 : is_totals_row (salesNanT2.getLastD []) = false := by decide
  have hL1 : salesNanT1.length = 2 := by decide
  have hL2 : salesNanT2.length = 2 := by decide
  have hne : ¬ (salesNanLeft.tables = [] ∨ salesNanRight.tables = []) := by decide
  unfold parse_page_pair
  rw [if_neg hne]
  dsimp only
  simp only [h1, h2, ht1, ht2, hL1, hL2]
  norm_num [List.range']
  simp [salesNan_step]

/-- C10 (implicit, corrected): every article the sales page-pair parser emits
has a non-empty article code, and each numeric field that is an actual number
satisfies the claimed bounds (quantity > 0, unit price >= 0, discount in
[0, 100]); moreover a discount comparing outside [0, 100] is clamped with a
warning rather than rejected.  The bounds are NOT unconditional: a NaN — which
`float()` accepts from a `nan` cell — passes every comparison guard, so NaN
quantities, unit prices and discounts are emitted unchecked (see the
counterexample). -/
theorem c10_sales_line_invariant :
    (∀ (page_left page_right : Page) (pair_idx : Nat) (a : ParsedArticle),
        a ∈ (parse_page_pair page_left page_right pair_idx).1 →
        a.article_code ≠ "" ∧ pfLe a.quantity (.num 0) = false ∧
          pfLt a.unit_price (.num 0) = false ∧
          (∀ q, a.quantity = .num q → 0 < q) ∧
          (∀ u, a.unit_price = .num u → 0 ≤ u) ∧
          (∀ d, a.discount_percent = .num d → 0 ≤ d ∧ d ≤ 100)) ∧
    (∀ (d : PyFloat) (i r : Nat),
        (pfLt d (.num 0) || pfLt (.num 100) d) = true →
          clampDiscount (some d) i r =
            (some (pyMaxF (.num 0) (pyMinF (.num 100) d)), [Diag.invalidDiscount i r])) := by
  refine ⟨fun pl pr i a hmem => ?_, fun d i r hd => ?_⟩
  · unfold parse_page_pair at hmem
    dsimp only at hmem
    split at hmem
    · exact absurd hmem (by simp)
    · split at hmem
      · exact absurd hmem (by simp)
      · obtain ⟨r, _hr, heq⟩ := List.mem_filterMap.mp hmem
        rcases hstep : salesRowStep (pl.tables.headD []) (pr.tables.headD []) i r with
          e | ⟨a', ds'⟩
        · rw [hstep] at heq
          exact absurd heq (by simp)
        · rw [hstep] at heq
          dsimp only at heq
          subst heq
          exact salesRowStep_invariant _ _ _ _ _ _ hstep
  · simp only [clampDiscount, if_pos hd]

/-- C10 witness: on the concrete demo pair the emitted article satisfies the
(numeric-field) invariant, and the out-of-range discount 150 is clamped with
a warning rather than rejected. -/
theorem c10_sales_line_invariant_witness :
    (salesDemoArticle.article_code ≠ "" ∧
      pfLe salesDemoArticle.quantity (.num 0) = false ∧
      pfLt salesDemoArticle.unit_price (.num 0) = false ∧
      (0 : Rat) < 2 ∧ (0 : Rat) ≤ 3 ∧ ((0 : Rat) ≤ 100 ∧ (100 : Rat) ≤ 100)) ∧
    clampDiscount (some (.num 150)) 0 1 =
      (some (pyMaxF (.num 0) (pyMinF (.num 100) (.num 150))), [Diag.invalidDiscount 0 1]) := by
  have hinv := c10_sales_line_invariant.1 salesDemoLeft salesDemoRight 0 salesDemoArticle
    (by rw [salesDemo_eval]; exact List.mem_singleton.mpr rfl)
  exact ⟨⟨hinv.1, hinv.2.1, hinv.2.2.1, hinv.2.2.2.1 2 rfl, hinv.2.2.2.2.1 3 rfl,
      hinv.2.2.2.2.2 100 rfl⟩,
    c10_sales_line_invariant.2 (.num 150) 0 1 (by norm_num [pfLt])⟩

/-- C10 counterexample: the document whose quantity and discount cells read
`nan` makes the parser emit an article with NaN quantity and NaN discount and
no diagnostic — the NaN quantity is not greater than 0 and the NaN discount
lies outside [0, 100] (both comparisons are false), refuting the claimed
unconditional bounds. -/
theorem c10_sales_line_invariant_counterexample :
    (parse_page_pair salesNanLeft salesNanRight 0).1.map ParsedArticle.quantity =
      [PyFloat.nan] ∧
    (parse_page_pair salesNanLeft salesNanRight 0).1.map ParsedArticle.discount_percent =
      [PyFloat.nan] ∧
    (parse_page_pair salesNanLeft salesNanRight 0).2 = [] ∧
    pfLt (.num 0) PyFloat.nan = false ∧
    (pfLe (.num 0) PyFloat.nan && pfLe PyFloat.nan (.num 100)) = false := by
  rw [salesNan_eval]
  exact ⟨rfl, rfl, rfl, rfl, rfl⟩

end Archibald
